import Mathlib

/-!
gofunk: conversion and composition of function shapes

A shallow embedding of the Go package `funk` (`consumer.go`, `func.go`,
`predicate.go`, `supplier.go`).

Modelling conventions
* A Go `error` is `Option Err`; `none` is `nil`.
* `context.Context` is a small persistent value: the nil interface value, the
  background context, or a parent extended with one key/value entry.
* A fallible function shape signals failure through its `error` result and is
  a total function returning a tuple.
* An infallible (`Must…`) function shape has no `error` result; calling it
  either returns or panics, so it returns an `Outcome`.
-/

namespace funk

/-- A non-nil failure value; it is also what `panic(err)` carries. -/
structure Err where
  msg : String
deriving DecidableEq, Repr

/-- Go `error`: `none` stands for `nil`. -/
abbrev Error := Option Err

/-- The standard library `context.Context` value, as far as this package and its
tests use it: `nil`, `context.Background()` and `context.WithValue`. -/
inductive Context where
  | nil : Context
  | Background : Context
  | WithValue (parent : Context) (key : String) (val : Int) : Context
deriving DecidableEq, Repr

/-- Source: `ctx.Value(key)`: the innermost entry stored under `key`, if any. -/
def Context.Value : Context → String → Option Int
  | .nil, _ => none
  | .Background, _ => none
  | .WithValue parent key val, k => if k = key then some val else parent.Value k

/-- Result of calling a function that may panic. -/
inductive Outcome (α : Type) where
  | returned (a : α) : Outcome α
  | panicked (payload : Err) : Outcome α
deriving DecidableEq, Repr

/-- True when the call aborted. -/
def Outcome.aborts {α : Type} : Outcome α → Bool
  | .returned _ => false
  | .panicked _ => true

/-! ## Test helpers (`gofunk_suite_test.go`) -/

/-- Source: `getCtxValue`: the integer stored under `"k"`, `0` when absent. -/
def getCtxValue (ctx : Context) : Int :=
  match ctx.Value "k" with
  | none => 0
  | some v => v

/-- Source: `incCtxValue`: store the successor of the integer under `"k"`. -/
def incCtxValue (ctx : Context) : Context :=
  Context.WithValue ctx "k" (getCtxValue ctx + 1)

/-! ## consumer.go -/

/-- Source: `type Consumer[T any] func(context.Context, T) (context.Context, error)` -/
abbrev Consumer (T : Type) := Context → T → Context × Error

/-- Source: `type MustConsumer[T any] func(context.Context, T) context.Context` -/
abbrev MustConsumer (T : Type) := Context → T → Outcome Context

/-- Source: `type PureConsumer[T any] func(T) error` -/
abbrev PureConsumer (T : Type) := T → Error

/-- Source: `type PureMustConsumer[T any] func(T)` -/
abbrev PureMustConsumer (T : Type) := T → Outcome Unit

/-- Source: `func (c Consumer[T]) Must() MustConsumer[T]`; the body calls
`c(context.Background(), t)`. -/
def Consumer.Must {T : Type} (c : Consumer T) : MustConsumer T :=
  fun _ctx t =>
    match c Context.Background t with
    | (ctx, err) =>
      match err with
      | some e => .panicked e
      | none => .returned ctx

/-- Source: `func (c Consumer[T]) Pure() PureConsumer[T]` -/
def Consumer.Pure {T : Type} (c : Consumer T) : PureConsumer T :=
  fun t =>
    match c Context.Background t with
    | (_, err) => err

/-- Source: `func (c MustConsumer[T]) Pure() PureMustConsumer[T]` -/
def MustConsumer.Pure {T : Type} (c : MustConsumer T) : PureMustConsumer T :=
  fun t =>
    match c Context.Background t with
    | .panicked p => .panicked p
    | .returned _ => .returned ()

/-- Source: `func (c PureConsumer[T]) Must() PureMustConsumer[T]` -/
def PureConsumer.Must {T : Type} (c : PureConsumer T) : PureMustConsumer T :=
  fun t =>
    match c t with
    | some e => .panicked e
    | none => .returned ()

/-- Source: `func (c Consumer[T]) Then(after Consumer[T]) Consumer[T]` -/
def Consumer.Then {T : Type} (c after : Consumer T) : Consumer T :=
  fun ctx t =>
    match c ctx t with
    | (ctx, err) =>
      match err with
      | some e => (ctx, some e)
      | none => after ctx t

/-- Source: `func (c MustConsumer[T]) Then(after MustConsumer[T]) MustConsumer[T]` -/
def MustConsumer.Then {T : Type} (c after : MustConsumer T) : MustConsumer T :=
  fun ctx t =>
    match c ctx t with
    | .panicked p => .panicked p
    | .returned ctx1 => after ctx1 t

/-- Source: `func (c PureConsumer[T]) Then(after PureConsumer[T]) PureConsumer[T]` -/
def PureConsumer.Then {T : Type} (c after : PureConsumer T) : PureConsumer T :=
  fun t =>
    match c t with
    | some e => some e
    | none => after t

/-- Source: `func (c PureMustConsumer[T]) Then(after PureMustConsumer[T]) PureMustConsumer[T]` -/
def PureMustConsumer.Then {T : Type} (c after : PureMustConsumer T) : PureMustConsumer T :=
  fun t =>
    match c t with
    | .panicked p => .panicked p
    | .returned _ => after t

/-- Source: `type BiConsumer[T, U any] func(context.Context, T, U) (context.Context, error)` -/
abbrev BiConsumer (T U : Type) := Context → T → U → Context × Error

/-- Source: `type MustBiConsumer[T, U any] func(context.Context, T, U) context.Context` -/
abbrev MustBiConsumer (T U : Type) := Context → T → U → Outcome Context

/-- Source: `type PureBiConsumer[T, U any] func(T, U) error` -/
abbrev PureBiConsumer (T U : Type) := T → U → Error

/-- Source: `type PureMustBiConsumer[T, U any] func(T, U)` -/
abbrev PureMustBiConsumer (T U : Type) := T → U → Outcome Unit

/-- Source: `func (c BiConsumer[T, U]) Must() MustBiConsumer[T, U]` -/
def BiConsumer.Must {T U : Type} (c : BiConsumer T U) : MustBiConsumer T U :=
  fun ctx t u =>
    match c ctx t u with
    | (ctx, err) =>
      match err with
      | some e => .panicked e
      | none => .returned ctx

/-- Source: `func (c BiConsumer[T, U]) Pure() PureBiConsumer[T, U]` -/
def BiConsumer.Pure {T U : Type} (c : BiConsumer T U) : PureBiConsumer T U :=
  fun t u =>
    match c Context.Background t u with
    | (_, err) => err

/-- Source: `func (c MustBiConsumer[T, U]) Pure() PureMustBiConsumer[T, U]` -/
def MustBiConsumer.Pure {T U : Type} (c : MustBiConsumer T U) : PureMustBiConsumer T U :=
  fun t u =>
    match c Context.Background t u with
    | .panicked p => .panicked p
    | .returned _ => .returned ()

/-- Source: `func (c PureBiConsumer[T, U]) Must() PureMustBiConsumer[T, U]` -/
def PureBiConsumer.Must {T U : Type} (c : PureBiConsumer T U) : PureMustBiConsumer T U :=
  fun t u =>
    match c t u with
    | some e => .panicked e
    | none => .returned ()

/-- Source: `func (c BiConsumer[T, U]) Then(after BiConsumer[T, U]) BiConsumer[T, U]` -/
def BiConsumer.Then {T U : Type} (c after : BiConsumer T U) : BiConsumer T U :=
  fun ctx t u =>
    match c ctx t u with
    | (ctx, err) =>
      match err with
      | some e => (ctx, some e)
      | none => after ctx t u

/-- Source: `func (c MustBiConsumer[T, U]) Then(after MustBiConsumer[T, U]) MustBiConsumer[T, U]` -/
def MustBiConsumer.Then {T U : Type} (c after : MustBiConsumer T U) : MustBiConsumer T U :=
  fun ctx t u =>
    match c ctx t u with
    | .panicked p => .panicked p
    | .returned ctx1 => after ctx1 t u

/-- Source: `func (c PureBiConsumer[T, U]) Then(after PureBiConsumer[T, U]) PureBiConsumer[T, U]` -/
def PureBiConsumer.Then {T U : Type} (c after : PureBiConsumer T U) : PureBiConsumer T U :=
  fun t u =>
    match c t u with
    | some e => some e
    | none => after t u

/-- Source: `func (c PureMustBiConsumer[T, U]) Then(after PureMustBiConsumer[T, U]) PureMustBiConsumer[T, U]` -/
def PureMustBiConsumer.Then {T U : Type} (c after : PureMustBiConsumer T U) :
    PureMustBiConsumer T U :=
  fun t u =>
    match c t u with
    | .panicked p => .panicked p
    | .returned _ => after t u

/-! ## func.go -/

/-- Source: `type Func[T, R any] func(context.Context, T) (context.Context, R, error)` -/
abbrev Func (T R : Type) := Context → T → Context × R × Error

/-- Source: `type MustFunc[T, R any] func(context.Context, T) (context.Context, R)` -/
abbrev MustFunc (T R : Type) := Context → T → Outcome (Context × R)

/-- Source: `type PureFunc[T, R any] func(T) (R, error)` -/
abbrev PureFunc (T R : Type) := T → R × Error

/-- Source: `type PureMustFunc[T, R any] func(T) R` -/
abbrev PureMustFunc (T R : Type) := T → Outcome R

/-- Source: `func (f Func[T, R]) Must() MustFunc[T, R]` -/
def Func.Must {T R : Type} (f : Func T R) : MustFunc T R :=
  fun ctx t =>
    match f ctx t with
    | (ctx, v, err) =>
      match err with
      | some e => .panicked e
      | none => .returned (ctx, v)

/-- Source: `func (f Func[T, R]) Pure() PureFunc[T, R]` -/
def Func.Pure {T R : Type} (f : Func T R) : PureFunc T R :=
  fun t =>
    match f Context.Background t with
    | (_, v, err) => (v, err)

/-- Source: `func (f MustFunc[T, R]) Pure() PureMustFunc[T, R]` -/
def MustFunc.Pure {T R : Type} (f : MustFunc T R) : PureMustFunc T R :=
  fun t =>
    match f Context.Background t with
    | .panicked p => .panicked p
    | .returned (_, v) => .returned v

/-- Source: `func (f PureFunc[T, R]) Must() PureMustFunc[T, R]` -/
def PureFunc.Must {T R : Type} (f : PureFunc T R) : PureMustFunc T R :=
  fun t =>
    match f t with
    | (v, err) =>
      match err with
      | some e => .panicked e
      | none => .returned v

/-- Source: `type Unary[T any] Func[T, T]` -/
abbrev Unary (T : Type) := Context → T → Context × T × Error

/-- Source: `type MustUnary[T any] MustFunc[T, T]` -/
abbrev MustUnary (T : Type) := Context → T → Outcome (Context × T)

/-- Source: `type PureUnary[T any] PureFunc[T, T]` -/
abbrev PureUnary (T : Type) := T → T × Error

/-- Source: `type PureMustUnary[T any] PureMustFunc[T, T]` -/
abbrev PureMustUnary (T : Type) := T → Outcome T

/-- Source: `func (u Unary[T]) Must() MustUnary[T]` -/
def Unary.Must {T : Type} (u : Unary T) : MustUnary T :=
  fun ctx t =>
    match u ctx t with
    | (ctx, v, err) =>
      match err with
      | some e => .panicked e
      | none => .returned (ctx, v)

/-- Source: `func (u Unary[T]) Pure() PureUnary[T]` -/
def Unary.Pure {T : Type} (u : Unary T) : PureUnary T :=
  fun t =>
    match u Context.Background t with
    | (_, v, err) => (v, err)

/-- Source: `func (u MustUnary[T]) Pure() PureMustUnary[T]` -/
def MustUnary.Pure {T : Type} (u : MustUnary T) : PureMustUnary T :=
  fun t =>
    match u Context.Background t with
    | .panicked p => .panicked p
    | .returned (_, v) => .returned v

/-- Source: `func (u PureUnary[T]) Must() PureMustUnary[T]` -/
def PureUnary.Must {T : Type} (u : PureUnary T) : PureMustUnary T :=
  fun t =>
    match u t with
    | (v, err) =>
      match err with
      | some e => .panicked e
      | none => .returned v

/-- Source: `func (u Unary[T]) Then(after Unary[T]) Unary[T]` -/
def Unary.Then {T : Type} (u after : Unary T) : Unary T :=
  fun ctx t =>
    match u ctx t with
    | (ctx, v, err) =>
      match err with
      | some e => (ctx, v, some e)
      | none => after ctx v

/-- Source: `func (u MustUnary[T]) Then(after MustUnary[T]) MustUnary[T]` -/
def MustUnary.Then {T : Type} (u after : MustUnary T) : MustUnary T :=
  fun ctx t =>
    match u ctx t with
    | .panicked p => .panicked p
    | .returned (ctx1, v) => after ctx1 v

/-- Source: `func (u PureUnary[T]) Then(after PureUnary[T]) PureUnary[T]` -/
def PureUnary.Then {T : Type} (u after : PureUnary T) : PureUnary T :=
  fun t =>
    match u t with
    | (v, err) =>
      match err with
      | some e => (v, some e)
      | none => after v

/-- Source: `func (u PureMustUnary[T]) Then(after PureMustUnary[T]) PureMustUnary[T]` -/
def PureMustUnary.Then {T : Type} (u after : PureMustUnary T) : PureMustUnary T :=
  fun t =>
    match u t with
    | .panicked p => .panicked p
    | .returned v => after v

/-- Source: `type BiFunc[T, U, R any] func(context.Context, T, U) (context.Context, R, error)` -/
abbrev BiFunc (T U R : Type) := Context → T → U → Context × R × Error

/-- Source: `type MustBiFunc[T, U, R any] func(context.Context, T, U) (context.Context, R)` -/
abbrev MustBiFunc (T U R : Type) := Context → T → U → Outcome (Context × R)

/-- Source: `type PureBiFunc[T, U, R any] func(T, U) (R, error)` -/
abbrev PureBiFunc (T U R : Type) := T → U → R × Error

/-- Source: `type PureMustBiFunc[T, U, R any] func(T, U) R` -/
abbrev PureMustBiFunc (T U R : Type) := T → U → Outcome R

/-- Source: `func (f BiFunc[T, U, R]) Must() MustBiFunc[T, U, R]` -/
def BiFunc.Must {T U R : Type} (f : BiFunc T U R) : MustBiFunc T U R :=
  fun ctx t u =>
    match f ctx t u with
    | (ctx, v, err) =>
      match err with
      | some e => .panicked e
      | none => .returned (ctx, v)

/-- Source: `func (f BiFunc[T, U, R]) Pure() PureBiFunc[T, U, R]` -/
def BiFunc.Pure {T U R : Type} (f : BiFunc T U R) : PureBiFunc T U R :=
  fun t u =>
    match f Context.Background t u with
    | (_, v, err) => (v, err)

/-- Source: `func (f MustBiFunc[T, U, R]) Pure() PureMustBiFunc[T, U, R]` -/
def MustBiFunc.Pure {T U R : Type} (f : MustBiFunc T U R) : PureMustBiFunc T U R :=
  fun t u =>
    match f Context.Background t u with
    | .panicked p => .panicked p
    | .returned (_, v) => .returned v

/-- Source: `func (f PureBiFunc[T, U, R]) Must() PureMustBiFunc[T, U, R]` -/
def PureBiFunc.Must {T U R : Type} (f : PureBiFunc T U R) : PureMustBiFunc T U R :=
  fun t u =>
    match f t u with
    | (v, err) =>
      match err with
      | some e => .panicked e
      | none => .returned v

/-! ## supplier.go -/

/-- Source: `type Supplier[T any] func(context.Context) (context.Context, T, error)` -/
abbrev Supplier (T : Type) := Context → Context × T × Error

/-- Source: `type MustSupplier[T any] func(context.Context) (context.Context, T)` -/
abbrev MustSupplier (T : Type) := Context → Outcome (Context × T)

/-- Source: `type PureSupplier[T any] func() (T, error)` -/
abbrev PureSupplier (T : Type) := Unit → T × Error

/-- Source: `type PureMustSupplier[T any] func() T` -/
abbrev PureMustSupplier (T : Type) := Unit → Outcome T

/-- Source: `func (s Supplier[T]) Must() MustSupplier[T]` -/
def Supplier.Must {T : Type} (s : Supplier T) : MustSupplier T :=
  fun ctx =>
    match s ctx with
    | (ctx, v, err) =>
      match err with
      | some e => .panicked e
      | none => .returned (ctx, v)

/-- Source: `func (s Supplier[T]) Pure() PureSupplier[T]` -/
def Supplier.Pure {T : Type} (s : Supplier T) : PureSupplier T :=
  fun _ =>
    match s Context.Background with
    | (_, v, err) => (v, err)

/-- Source: `func (c MustSupplier[T]) Pure() PureMustSupplier[T]` -/
def MustSupplier.Pure {T : Type} (c : MustSupplier T) : PureMustSupplier T :=
  fun _ =>
    match c Context.Background with
    | .panicked p => .panicked p
    | .returned (_, v) => .returned v

/-- Source: `func (c PureSupplier[T]) Must() PureMustSupplier[T]` -/
def PureSupplier.Must {T : Type} (c : PureSupplier T) : PureMustSupplier T :=
  fun _ =>
    match c () with
    | (v, err) =>
      match err with
      | some e => .panicked e
      | none => .returned v

/-! ## predicate.go -/

/-- Source: `type Predicate[T any] func(context.Context, T) (context.Context, bool, error)` -/
abbrev Predicate (T : Type) := Context → T → Context × Bool × Error

/-- Source: `type MustPredicate[T any] func(context.Context, T) (context.Context, bool)` -/
abbrev MustPredicate (T : Type) := Context → T → Outcome (Context × Bool)

/-- Source: `type PurePredicate[T any] func(T) (bool, error)` -/
abbrev PurePredicate (T : Type) := T → Bool × Error

/-- Source: `type PureMustPredicate[T any] func(T) bool` -/
abbrev PureMustPredicate (T : Type) := T → Outcome Bool

/-- Source: `func (p Predicate[T]) Must() MustPredicate[T]` -/
def Predicate.Must {T : Type} (p : Predicate T) : MustPredicate T :=
  fun ctx t =>
    match p ctx t with
    | (ctx, v, err) =>
      match err with
      | some e => .panicked e
      | none => .returned (ctx, v)

/-- Source: `func (p Predicate[T]) Pure() PurePredicate[T]` -/
def Predicate.Pure {T : Type} (p : Predicate T) : PurePredicate T :=
  fun t =>
    match p Context.Background t with
    | (_, v, err) => (v, err)

/-- Source: `func (p MustPredicate[T]) Pure() PureMustPredicate[T]` -/
def MustPredicate.Pure {T : Type} (p : MustPredicate T) : PureMustPredicate T :=
  fun t =>
    match p Context.Background t with
    | .panicked e => .panicked e
    | .returned (_, v) => .returned v

/-- Source: `func (p PurePredicate[T]) Must() PureMustPredicate[T]` -/
def PurePredicate.Must {T : Type} (p : PurePredicate T) : PureMustPredicate T :=
  fun t =>
    match p t with
    | (v, err) =>
      match err with
      | some e => .panicked e
      | none => .returned v

/-- Source: `func (p Predicate[T]) And(other Predicate[T]) Predicate[T]` -/
def Predicate.And {T : Type} (p other : Predicate T) : Predicate T :=
  fun ctx t =>
    match p ctx t with
    | (ctx, v, err) =>
      if v = false ∨ err ≠ none then (ctx, v, err) else other ctx t

/-- Source: `func (p Predicate[T]) Or(other Predicate[T]) Predicate[T]` -/
def Predicate.Or {T : Type} (p other : Predicate T) : Predicate T :=
  fun ctx t =>
    match p ctx t with
    | (ctx, v, err) =>
      if v = true ∨ err ≠ none then (ctx, v, err) else other ctx t

/-- Source: `func (p Predicate[T]) Not() Predicate[T]` -/
def Predicate.Not {T : Type} (p : Predicate T) : Predicate T :=
  fun ctx t =>
    match p ctx t with
    | (ctx, v, err) => (ctx, !v, err)

/-- Source: `func (p MustPredicate[T]) And(other MustPredicate[T]) MustPredicate[T]` -/
def MustPredicate.And {T : Type} (p other : MustPredicate T) : MustPredicate T :=
  fun ctx t =>
    match p ctx t with
    | .panicked e => .panicked e
    | .returned (ctx, v) => if v = false then .returned (ctx, v) else other ctx t

/-- Source: `func (p MustPredicate[T]) Or(other MustPredicate[T]) MustPredicate[T]` -/
def MustPredicate.Or {T : Type} (p other : MustPredicate T) : MustPredicate T :=
  fun ctx t =>
    match p ctx t with
    | .panicked e => .panicked e
    | .returned (ctx, v) => if v = true then .returned (ctx, v) else other ctx t

/-- Source: `func (p MustPredicate[T]) Not() MustPredicate[T]` -/
def MustPredicate.Not {T : Type} (p : MustPredicate T) : MustPredicate T :=
  fun ctx t =>
    match p ctx t with
    | .panicked e => .panicked e
    | .returned (ctx, v) => .returned (ctx, !v)

/-- Source: `func (p PurePredicate[T]) And(other PurePredicate[T]) PurePredicate[T]` -/
def PurePredicate.And {T : Type} (p other : PurePredicate T) : PurePredicate T :=
  fun t =>
    match p t with
    | (v, err) => if v = false ∨ err ≠ none then (v, err) else other t

/-- Source: `func (p PurePredicate[T]) Or(other PurePredicate[T]) PurePredicate[T]` -/
def PurePredicate.Or {T : Type} (p other : PurePredicate T) : PurePredicate T :=
  fun t =>
    match p t with
    | (v, err) => if v = true ∨ err ≠ none then (v, err) else other t

/-- Source: `func (p PurePredicate[T]) Not() PurePredicate[T]` -/
def PurePredicate.Not {T : Type} (p : PurePredicate T) : PurePredicate T :=
  fun t =>
    match p t with
    | (v, err) => (!v, err)

/-- Source: `func (p PureMustPredicate[T]) And(other PureMustPredicate[T]) PureMustPredicate[T]`;
`p(t) && other(t)` evaluates `other(t)` only when `p(t)` is true. -/
def PureMustPredicate.And {T : Type} (p other : PureMustPredicate T) : PureMustPredicate T :=
  fun t =>
    match p t with
    | .panicked e => .panicked e
    | .returned false => .returned false
    | .returned true => other t

/-- Source: `func (p PureMustPredicate[T]) Or(other PureMustPredicate[T]) PureMustPredicate[T]`;
`p(t) || other(t)` evaluates `other(t)` only when `p(t)` is false. -/
def PureMustPredicate.Or {T : Type} (p other : PureMustPredicate T) : PureMustPredicate T :=
  fun t =>
    match p t with
    | .panicked e => .panicked e
    | .returned true => .returned true
    | .returned false => other t

/-- Source: `func (p PureMustPredicate[T]) Not() PureMustPredicate[T]` -/
def PureMustPredicate.Not {T : Type} (p : PureMustPredicate T) : PureMustPredicate T :=
  fun t =>
    match p t with
    | .panicked e => .panicked e
    | .returned v => .returned (!v)

/-- Source: `type BiPredicate[T, U any] func(context.Context, T, U) (context.Context, bool, error)` -/
abbrev BiPredicate (T U : Type) := Context → T → U → Context × Bool × Error

/-- Source: `type MustBiPredicate[T, U any] func(context.Context, T, U) (context.Context, bool)` -/
abbrev MustBiPredicate (T U : Type) := Context → T → U → Outcome (Context × Bool)

/-- Source: `type PureBiPredicate[T, U any] func(T, U) (bool, error)` -/
abbrev PureBiPredicate (T U : Type) := T → U → Bool × Error

/-- Source: `type PureMustBiPredicate[T, U any] func(T, U) bool` -/
abbrev PureMustBiPredicate (T U : Type) := T → U → Outcome Bool

/-- Source: `func (p BiPredicate[T, U]) Must() MustBiPredicate[T, U]` -/
def BiPredicate.Must {T U : Type} (p : BiPredicate T U) : MustBiPredicate T U :=
  fun ctx t u =>
    match p ctx t u with
    | (ctx, v, err) =>
      match err with
      | some e => .panicked e
      | none => .returned (ctx, v)

/-- Source: `func (p BiPredicate[T, U]) Pure() PureBiPredicate[T, U]` -/
def BiPredicate.Pure {T U : Type} (p : BiPredicate T U) : PureBiPredicate T U :=
  fun t u =>
    match p Context.Background t u with
    | (_, v, err) => (v, err)

/-- Source: `func (p MustBiPredicate[T, U]) Pure() PureMustBiPredicate[T, U]` -/
def MustBiPredicate.Pure {T U : Type} (p : MustBiPredicate T U) : PureMustBiPredicate T U :=
  fun t u =>
    match p Context.Background t u with
    | .panicked e => .panicked e
    | .returned (_, v) => .returned v

/-- Source: `func (p PureBiPredicate[T, U]) Must() PureMustBiPredicate[T, U]` -/
def PureBiPredicate.Must {T U : Type} (p : PureBiPredicate T U) : PureMustBiPredicate T U :=
  fun t u =>
    match p t u with
    | (v, err) =>
      match err with
      | some e => .panicked e
      | none => .returned v

/-- Source: `func (p BiPredicate[T, U]) And(other BiPredicate[T, U]) BiPredicate[T, U]` -/
def BiPredicate.And {T U : Type} (p other : BiPredicate T U) : BiPredicate T U :=
  fun ctx t u =>
    match p ctx t u with
    | (ctx, v, err) =>
      if v = false ∨ err ≠ none then (ctx, v, err) else other ctx t u

/-- Source: `func (p BiPredicate[T, U]) Or(other BiPredicate[T, U]) BiPredicate[T, U]` -/
def BiPredicate.Or {T U : Type} (p other : BiPredicate T U) : BiPredicate T U :=
  fun ctx t u =>
    match p ctx t u with
    | (ctx, v, err) =>
      if v = true ∨ err ≠ none then (ctx, v, err) else other ctx t u

/-- Source: `func (p BiPredicate[T, U]) Not() BiPredicate[T, U]` -/
def BiPredicate.Not {T U : Type} (p : BiPredicate T U) : BiPredicate T U :=
  fun ctx t u =>
    match p ctx t u with
    | (ctx, v, err) => (ctx, !v, err)

/-- Source: `func (p MustBiPredicate[T, U]) And(other MustBiPredicate[T, U]) MustBiPredicate[T, U]` -/
def MustBiPredicate.And {T U : Type} (p other : MustBiPredicate T U) : MustBiPredicate T U :=
  fun ctx t u =>
    match p ctx t u with
    | .panicked e => .panicked e
    | .returned (ctx, v) => if v = false then .returned (ctx, v) else other ctx t u

/-- Source: `func (p MustBiPredicate[T, U]) Or(other MustBiPredicate[T, U]) MustBiPredicate[T, U]` -/
def MustBiPredicate.Or {T U : Type} (p other : MustBiPredicate T U) : MustBiPredicate T U :=
  fun ctx t u =>
    match p ctx t u with
    | .panicked e => .panicked e
    | .returned (ctx, v) => if v = true then .returned (ctx, v) else other ctx t u

/-- Source: `func (p MustBiPredicate[T, U]) Not() MustBiPredicate[T, U]` -/
def MustBiPredicate.Not {T U : Type} (p : MustBiPredicate T U) : MustBiPredicate T U :=
  fun ctx t u =>
    match p ctx t u with
    | .panicked e => .panicked e
    | .returned (ctx, v) => .returned (ctx, !v)

/-- Source: `func (p PureBiPredicate[T, U]) And(other PureBiPredicate[T, U]) PureBiPredicate[T, U]` -/
def PureBiPredicate.And {T U : Type} (p other : PureBiPredicate T U) : PureBiPredicate T U :=
  fun t u =>
    match p t u with
    | (v, err) => if v = false ∨ err ≠ none then (v, err) else other t u

/-- Source: `func (p PureBiPredicate[T, U]) Or(other PureBiPredicate[T, U]) PureBiPredicate[T, U]` -/
def PureBiPredicate.Or {T U : Type} (p other : PureBiPredicate T U) : PureBiPredicate T U :=
  fun t u =>
    match p t u with
    | (v, err) => if v = true ∨ err ≠ none then (v, err) else other t u

/-- Source: `func (p PureBiPredicate[T, U]) Not() PureBiPredicate[T, U]` -/
def PureBiPredicate.Not {T U : Type} (p : PureBiPredicate T U) : PureBiPredicate T U :=
  fun t u =>
    match p t u with
    | (v, err) => (!v, err)

/-- Source: `func (p PureMustBiPredicate[T, U]) And(other PureMustBiPredicate[T, U]) PureMustBiPredicate[T, U]` -/
def PureMustBiPredicate.And {T U : Type} (p other : PureMustBiPredicate T U) :
    PureMustBiPredicate T U :=
  fun t u =>
    match p t u with
    | .panicked e => .panicked e
    | .returned false => .returned false
    | .returned true => other t u

/-- Source: `func (p PureMustBiPredicate[T, U]) Or(other PureMustBiPredicate[T, U]) PureMustBiPredicate[T, U]` -/
def PureMustBiPredicate.Or {T U : Type} (p other : PureMustBiPredicate T U) :
    PureMustBiPredicate T U :=
  fun t u =>
    match p t u with
    | .panicked e => .panicked e
    | .returned true => .returned true
    | .returned false => other t u

/-- Source: `func (p PureMustBiPredicate[T, U]) Not() PureMustBiPredicate[T, U]` -/
def PureMustBiPredicate.Not {T U : Type} (p : PureMustBiPredicate T U) :
    PureMustBiPredicate T U :=
  fun t u =>
    match p t u with
    | .panicked e => .panicked e
    | .returned v => .returned (!v)

/-! ## Sample functions (from the tests and examples) -/

/-- The consumer of `consumer_test.go` that increments the counter under `"k"`
and succeeds. -/
def incConsumer : Consumer String :=
  fun ctx _ => (incCtxValue ctx, none)

/-- A consumer that fails exactly when the counter under `"k"` is positive,
returning its context unchanged. -/
def failIfCountedConsumer : Consumer String :=
  fun ctx _ => if 0 < getCtxValue ctx then (ctx, some ⟨"counted"⟩) else (ctx, none)

/-- The succeeding two-input consumer of `consumer_test.go`: stores `1` under `"k"`. -/
def storeOneBiConsumer : BiConsumer String String :=
  fun ctx _ _ => (Context.WithValue ctx "k" 1, none)

/-- The failing two-input consumer of `consumer_test.go`. -/
def failingBiConsumer : BiConsumer String String :=
  fun ctx _ _ => (ctx, some ⟨""⟩)

/-- A function in the style of `ExampleFunc`: records its input under `"k"` and
returns its successor. -/
def recordFunc : Func Int Int :=
  fun ctx i => (Context.WithValue ctx "k" i, i + 1, none)

/-- A function that fails while still returning a context and a value. -/
def failingFunc : Func Int Int :=
  fun ctx i => (Context.WithValue ctx "k" i, i + 1, some ⟨"error"⟩)

/-- A two-input function in the style of `ExampleBiFunc`. -/
def sumBiFunc : BiFunc Int Int Int :=
  fun ctx i j => (Context.WithValue ctx "k" (i + j), i + j, none)

/-- A two-input function that fails while still returning a context and a value. -/
def failingBiFunc : BiFunc Int Int Int :=
  fun ctx i j => (Context.WithValue ctx "k" (i + j), i + j, some ⟨"error"⟩)

/-- The succeeding supplier of `supplier_test.go`. -/
def oneSupplier : Supplier String :=
  fun ctx => (Context.WithValue ctx "k" 1, "1", none)

/-- The failing supplier of `supplier_test.go`; it returns a context and a value
alongside the failure. -/
def failingSupplier : Supplier String :=
  fun ctx => (Context.WithValue ctx "k" 1, "1", some ⟨"error"⟩)

/-- The default supplier of `supplier_test.go`; it returns a nil context. -/
def nilCtxSupplier : Supplier String :=
  fun _ => (Context.nil, "", none)

/-- A predicate that counts its calls under `"k"` and tests positivity. -/
def positivePredicate : Predicate Int :=
  fun ctx i => (incCtxValue ctx, decide (0 < i), none)

/-- A predicate that fails while still returning a context and a boolean. -/
def failingPredicate : Predicate Int :=
  fun ctx _ => (incCtxValue ctx, true, some ⟨"error"⟩)

/-- A pure fallible function: halves an even number, fails on an odd one while
still returning a value. -/
def halfPureFunc : PureFunc Int Int :=
  fun i => if i % 2 = 0 then (i / 2, none) else (i, some ⟨"odd"⟩)

/-- A pure fallible two-input function: integer division failing on a zero divisor. -/
def divPureBiFunc : PureBiFunc Int Int Int :=
  fun i j => if j = 0 then (0, some ⟨"division by zero"⟩) else (i / j, none)

/-- A pure fallible predicate: evenness, failing on negative numbers. -/
def evenPurePredicate : PurePredicate Int :=
  fun i => if i < 0 then (false, some ⟨"negative"⟩) else (decide (i % 2 = 0), none)

/-- A pure fallible supplier that succeeds. -/
def onePureSupplier : PureSupplier String :=
  fun _ => ("1", none)

/-- A pure fallible supplier that fails while still returning a value. -/
def failingPureSupplier : PureSupplier String :=
  fun _ => ("1", some ⟨"error"⟩)

/-- A pure fallible consumer: rejects the empty string. -/
def nonEmptyPureConsumer : PureConsumer String :=
  fun s => if s = "" then some ⟨"empty"⟩ else none

/-- An infallible function that panics on negative input. -/
def guardedMustFunc : MustFunc Int Int :=
  fun ctx i =>
    if i < 0 then .panicked ⟨"negative"⟩ else .returned (Context.WithValue ctx "k" i, i + 1)

/-- An infallible two-input function that panics on a zero divisor. -/
def divMustBiFunc : MustBiFunc Int Int Int :=
  fun ctx i j =>
    if j = 0 then .panicked ⟨"division by zero"⟩ else .returned (incCtxValue ctx, i / j)

/-- An infallible predicate that panics on negative input. -/
def evenMustPredicate : MustPredicate Int :=
  fun ctx i =>
    if i < 0 then .panicked ⟨"negative"⟩ else .returned (incCtxValue ctx, decide (i % 2 = 0))

/-- An infallible supplier that returns a nil context. -/
def nilCtxMustSupplier : MustSupplier String :=
  fun _ => .returned (Context.nil, "")

/-- The consumer of `consumer_test.go` that increments the counter under `"k"`
and fails. -/
def incFailConsumer : Consumer String :=
  fun ctx _ => (incCtxValue ctx, some ⟨""⟩)

/-- A unary function that counts its call under `"k"` and adds one. -/
def succUnary : Unary Int :=
  fun ctx i => (incCtxValue ctx, i + 1, none)

/-- A unary function that counts its call under `"k"` and doubles. -/
def doubleUnary : Unary Int :=
  fun ctx i => (incCtxValue ctx, 2 * i, none)

/-- A unary function that counts its call under `"k"` and fails, returning the
negated input as its value. -/
def failingUnary : Unary Int :=
  fun ctx i => (incCtxValue ctx, -i, some ⟨"unary"⟩)

/-- A pure fallible consumer: rejects the string `"x"`. -/
def notXPureConsumer : PureConsumer String :=
  fun s => if s = "x" then some ⟨"x"⟩ else none

/-- An infallible consumer that counts its call under `"k"`. -/
def incMustConsumer : MustConsumer String :=
  fun ctx _ => .returned (incCtxValue ctx)

/-- An infallible consumer that panics once the counter under `"k"` is positive. -/
def onceMustConsumer : MustConsumer String :=
  fun ctx _ => if 0 < getCtxValue ctx then .panicked ⟨"twice"⟩ else .returned (incCtxValue ctx)

/-- The first step of `ExampleUnary`: stores `1` under `"k"` and adds one. -/
def exampleFirstMustUnary : MustUnary Int :=
  fun ctx i => .returned (Context.WithValue ctx "k" 1, i + 1)

/-- The second step of `ExampleUnary`: stores `2` under `"k"` and adds two. -/
def exampleSecondMustUnary : MustUnary Int :=
  fun ctx i => .returned (Context.WithValue ctx "k" 2, i + 2)

/-- A pure infallible unary that adds one. -/
def succPureMustUnary : PureMustUnary Int :=
  fun i => .returned (i + 1)

/-- A pure infallible unary that panics on negative input and doubles otherwise. -/
def guardedPureMustUnary : PureMustUnary Int :=
  fun i => if i < 0 then .panicked ⟨"negative"⟩ else .returned (2 * i)

/-- The predicate of `predicate_test.go` that counts its call under `"k"` and
returns true. -/
def truePredicate : Predicate String :=
  fun ctx _ => (incCtxValue ctx, true, none)

/-- The predicate of `predicate_test.go` that counts its call under `"k"` and
returns false. -/
def falsePredicate : Predicate String :=
  fun ctx _ => (incCtxValue ctx, false, none)

/-- The predicate of `predicate_test.go` that counts its call under `"k"` and
fails, with boolean true. -/
def errPredicate : Predicate String :=
  fun ctx _ => (incCtxValue ctx, true, some ⟨""⟩)

/-- A predicate that counts its call under `"k"` and fails, with boolean false. -/
def errFalsePredicate : Predicate String :=
  fun ctx _ => (incCtxValue ctx, false, some ⟨"failed"⟩)

/-! ## One-input forms over a pair (the correspondence of the specification) -/

/-- The one-input consumer on pairs that corresponds to a two-input consumer:
`C(ctx, (t, u)) = c(ctx, t, u)`. -/
def BiConsumer.onPair {T U : Type} (c : BiConsumer T U) : Consumer (T × U) :=
  fun ctx tu => c ctx tu.1 tu.2

/-- The one-input predicate on pairs that corresponds to a two-input predicate:
`P(ctx, (t, u)) = p(ctx, t, u)`. -/
def BiPredicate.onPair {T U : Type} (p : BiPredicate T U) : Predicate (T × U) :=
  fun ctx tu => p ctx tu.1 tu.2

/-! ## More sample functions -/

/-- A pure infallible predicate: positivity. -/
def positivePureMustPredicate : PureMustPredicate Int :=
  fun i => .returned (decide (0 < i))

/-- A pure infallible predicate: evenness. -/
def evenPureMustPredicate : PureMustPredicate Int :=
  fun i => .returned (decide (i % 2 = 0))

/-- A pure infallible predicate that always panics. -/
def panicPureMustPredicate : PureMustPredicate Int :=
  fun _ => .panicked ⟨"never"⟩

/-- The infallible predicates of `ExamplePredicate`: store `n` under `"k"` and
return `b`. -/
def exampleMustPredicate (n : Int) (b : Bool) : MustPredicate Int :=
  fun ctx _ => .returned (Context.WithValue ctx "k" n, b)

/-- The first predicate of `ExamplePredicate`, before `Must`. -/
def examplePredicate : Predicate Int :=
  fun ctx _ => (Context.WithValue ctx "k" 1, true, none)

/-- An infallible predicate that always panics. -/
def panicMustPredicate : MustPredicate Int :=
  fun _ _ => .panicked ⟨"never"⟩

/-- The pure predicate of `predicate_test.go` returning false without failure. -/
def falsePurePredicate : PurePredicate String :=
  fun _ => (false, none)

/-- The pure predicate of `predicate_test.go` returning true without failure. -/
def truePurePredicate : PurePredicate String :=
  fun _ => (true, none)

/-- The pure predicate of `predicate_test.go` returning true with a failure. -/
def errPurePredicate : PurePredicate String :=
  fun _ => (true, some ⟨""⟩)

/-- A two-input consumer that counts its call under `"k"` and succeeds. -/
def incBiConsumer : BiConsumer String Int :=
  fun ctx _ _ => (incCtxValue ctx, none)

/-- A two-input consumer that fails exactly when the counter under `"k"` is
positive, returning its context unchanged. -/
def failIfCountedBiConsumer : BiConsumer String Int :=
  fun ctx _ _ => if 0 < getCtxValue ctx then (ctx, some ⟨"counted"⟩) else (ctx, none)

/-- A two-input predicate that counts its call under `"k"` and compares its inputs. -/
def lessBiPredicate : BiPredicate Int Int :=
  fun ctx i j => (incCtxValue ctx, decide (i < j), none)

/-- A two-input predicate that counts its call under `"k"` and fails on equal inputs. -/
def distinctBiPredicate : BiPredicate Int Int :=
  fun ctx i j =>
    if i = j then (incCtxValue ctx, false, some ⟨"equal"⟩) else (incCtxValue ctx, true, none)

/-- A consumer that returns its context unchanged and rejects negative numbers. -/
def keepConsumer : Consumer Int :=
  fun ctx i => if i < 0 then (ctx, some ⟨"negative"⟩) else (ctx, none)

/-- A predicate that returns its context unchanged: evenness, failing on
negative numbers. -/
def keepEvenPredicate : Predicate Int :=
  fun ctx i => if i < 0 then (ctx, false, some ⟨"negative"⟩) else (ctx, decide (i % 2 = 0), none)

/-- A unary function that returns its context unchanged: halves an even number,
fails on an odd one. -/
def keepHalfUnary : Unary Int :=
  fun ctx i => if i % 2 = 0 then (ctx, i / 2, none) else (ctx, i, some ⟨"odd"⟩)

/-- An infallible consumer that returns its context unchanged and panics on
negative numbers. -/
def keepMustConsumer : MustConsumer Int :=
  fun ctx i => if i < 0 then .panicked ⟨"negative"⟩ else .returned ctx

/-- An infallible predicate that returns its context unchanged: evenness,
panicking on negative numbers. -/
def keepEvenMustPredicate : MustPredicate Int :=
  fun ctx i => if i < 0 then .panicked ⟨"negative"⟩ else .returned (ctx, decide (i % 2 = 0))

/-- An infallible unary function that returns its context unchanged: halves an
even number, panics on an odd one. -/
def keepHalfMustUnary : MustUnary Int :=
  fun ctx i => if i % 2 = 0 then .returned (ctx, i / 2) else .panicked ⟨"odd"⟩

/-! ## Identity elements (as the specification names them) -/

/-- The consumer returning `(ctx, nil)`; it is the default consumer of
`consumer_test.go`. -/
def idConsumer {T : Type} : Consumer T :=
  fun ctx _ => (ctx, none)

/-- The predicate returning `(ctx, true, nil)`. -/
def constTruePredicate {T : Type} : Predicate T :=
  fun ctx _ => (ctx, true, none)

/-- The predicate returning `(ctx, false, nil)`. -/
def constFalsePredicate {T : Type} : Predicate T :=
  fun ctx _ => (ctx, false, none)

/-! ## Must on the context-carrying fallible shapes -/

/-- C1 (fails on the code): `Consumer.Must` calls the consumer with the background
context instead of the caller's. With the counting consumer and a caller context
whose counter is 5, the consumer itself returns counter 6 and no failure, while
the `Must` wrapper returns counter 1; so "returns exactly the context `c`
produced from the caller's `ctx`" does not hold for every consumer. -/
theorem C1_Consumer_Must_drops_caller_context :
    incConsumer (Context.WithValue Context.Background "k" 5) ""
        = (Context.WithValue (Context.WithValue Context.Background "k" 5) "k" 6, none)
      ∧ Consumer.Must incConsumer (Context.WithValue Context.Background "k" 5) ""
        = Outcome.returned (Context.WithValue Context.Background "k" 1)
      ∧ ¬ (∀ (c : Consumer String) (ctx ctx1 : Context) (t : String),
            c ctx t = (ctx1, none) → Consumer.Must c ctx t = Outcome.returned ctx1) := by
  refine ⟨by decide, by decide, fun h => ?_⟩
  have h1 := h incConsumer (Context.WithValue Context.Background "k" 5) _ "" rfl
  revert h1
  decide

/-- C2 (fails on the code): because `Consumer.Must` calls the consumer with the
background context, a consumer that fails on the caller's context (counter 1) but
succeeds on the background context does not make the wrapper abort; so "aborts
if and only if `c(ctx, t)` returns a non-nil failure" does not hold for every
consumer. -/
theorem C2_Consumer_Must_abort_misses_caller_failure :
    failIfCountedConsumer (Context.WithValue Context.Background "k" 1) ""
        = (Context.WithValue Context.Background "k" 1, some ⟨"counted"⟩)
      ∧ Consumer.Must failIfCountedConsumer (Context.WithValue Context.Background "k" 1) ""
        = Outcome.returned Context.Background
      ∧ ¬ (∀ (c : Consumer String) (ctx : Context) (t : String),
            (Consumer.Must c ctx t).aborts = true ↔ (c ctx t).2 ≠ none) := by
  refine ⟨by decide, by decide, fun h => ?_⟩
  have h1 := (h failIfCountedConsumer (Context.WithValue Context.Background "k" 1) "").2
  revert h1
  decide

/-- C3: `BiConsumer.Must` returns the context the consumer produced from the
caller's context when the consumer succeeds, and panics with the consumer's
failure when it fails. -/
theorem C3_BiConsumer_Must {T U : Type} (c : BiConsumer T U) (ctx : Context) (t : T) (u : U) :
    (∀ ctx1, c ctx t u = (ctx1, none) → BiConsumer.Must c ctx t u = Outcome.returned ctx1)
      ∧ (∀ ctx1 err, c ctx t u = (ctx1, some err) →
          BiConsumer.Must c ctx t u = Outcome.panicked err) := by
  constructor
  · intro ctx1 h
    simp [BiConsumer.Must, h]
  · intro ctx1 err h
    simp [BiConsumer.Must, h]

/-- Witness for C3 on the two consumers of the test suite. -/
theorem C3_BiConsumer_Must_witness :
    BiConsumer.Must storeOneBiConsumer Context.Background "" ""
        = Outcome.returned (Context.WithValue Context.Background "k" 1)
      ∧ BiConsumer.Must failingBiConsumer Context.Background "" "" = Outcome.panicked ⟨""⟩ :=
  ⟨(C3_BiConsumer_Must storeOneBiConsumer Context.Background "" "").1 _ rfl,
   (C3_BiConsumer_Must failingBiConsumer Context.Background "" "").2 _ _ rfl⟩

/-- C4: for `Func`, `Unary` and `BiFunc`, `Must` returns exactly the context and
value of a successful call, and panics with the failure of a failing call. -/
theorem C4_Func_Unary_BiFunc_Must {T U R : Type} (f : Func T R) (g : Unary T)
    (h : BiFunc T U R) (ctx : Context) (t : T) (u : U) :
    ((∀ ctx1 v, f ctx t = (ctx1, v, none) → Func.Must f ctx t = Outcome.returned (ctx1, v))
      ∧ (∀ ctx1 v err, f ctx t = (ctx1, v, some err) →
          Func.Must f ctx t = Outcome.panicked err))
    ∧ ((∀ ctx1 v, g ctx t = (ctx1, v, none) → Unary.Must g ctx t = Outcome.returned (ctx1, v))
      ∧ (∀ ctx1 v err, g ctx t = (ctx1, v, some err) →
          Unary.Must g ctx t = Outcome.panicked err))
    ∧ ((∀ ctx1 v, h ctx t u = (ctx1, v, none) →
          BiFunc.Must h ctx t u = Outcome.returned (ctx1, v))
      ∧ (∀ ctx1 v err, h ctx t u = (ctx1, v, some err) →
          BiFunc.Must h ctx t u = Outcome.panicked err)) := by
  refine ⟨⟨?_, ?_⟩, ⟨?_, ?_⟩, ⟨?_, ?_⟩⟩
  · intro ctx1 v hf
    simp [Func.Must, hf]
  · intro ctx1 v err hf
    simp [Func.Must, hf]
  · intro ctx1 v hg
    simp [Unary.Must, hg]
  · intro ctx1 v err hg
    simp [Unary.Must, hg]
  · intro ctx1 v hh
    simp [BiFunc.Must, hh]
  · intro ctx1 v err hh
    simp [BiFunc.Must, hh]

/-- Witness for C4: a succeeding `Func` called on a non-empty caller context, a
failing `Unary`, and a succeeding `BiFunc`. -/
theorem C4_Func_Unary_BiFunc_Must_witness :
    Func.Must recordFunc (Context.WithValue Context.Background "j" 9) 1
        = Outcome.returned
            (Context.WithValue (Context.WithValue Context.Background "j" 9) "k" 1, 2)
      ∧ Unary.Must failingFunc Context.Background 1 = Outcome.panicked ⟨"error"⟩
      ∧ BiFunc.Must sumBiFunc Context.Background 1 3
        = Outcome.returned (Context.WithValue Context.Background "k" 4, 4) :=
  ⟨(C4_Func_Unary_BiFunc_Must recordFunc failingFunc sumBiFunc
      (Context.WithValue Context.Background "j" 9) 1 3).1.1 _ _ rfl,
   (C4_Func_Unary_BiFunc_Must recordFunc failingFunc sumBiFunc
      Context.Background 1 3).2.1.2 _ _ _ rfl,
   (C4_Func_Unary_BiFunc_Must recordFunc failingFunc sumBiFunc
      Context.Background 1 3).2.2.1 _ _ rfl⟩

/-- C5: for `Supplier` and `Predicate`, `Must` returns exactly the context and
value of a successful call, and panics with the failure of a failing call,
whatever context and value came with the failure. -/
theorem C5_Supplier_Predicate_Must {T R : Type} (s : Supplier R) (p : Predicate T)
    (ctx : Context) (t : T) :
    ((∀ ctx1 v, s ctx = (ctx1, v, none) → Supplier.Must s ctx = Outcome.returned (ctx1, v))
      ∧ (∀ ctx1 v err, s ctx = (ctx1, v, some err) →
          Supplier.Must s ctx = Outcome.panicked err))
    ∧ ((∀ ctx1 b, p ctx t = (ctx1, b, none) →
          Predicate.Must p ctx t = Outcome.returned (ctx1, b))
      ∧ (∀ ctx1 b err, p ctx t = (ctx1, b, some err) →
          Predicate.Must p ctx t = Outcome.panicked err)) := by
  refine ⟨⟨?_, ?_⟩, ⟨?_, ?_⟩⟩
  · intro ctx1 v hs
    simp [Supplier.Must, hs]
  · intro ctx1 v err hs
    simp [Supplier.Must, hs]
  · intro ctx1 b hp
    simp [Predicate.Must, hp]
  · intro ctx1 b err hp
    simp [Predicate.Must, hp]

/-- Witness for C5: the two suppliers of the test suite, and a predicate that
fails while returning a context and a boolean. -/
theorem C5_Supplier_Predicate_Must_witness :
    Supplier.Must oneSupplier Context.Background
        = Outcome.returned (Context.WithValue Context.Background "k" 1, "1")
      ∧ Supplier.Must failingSupplier Context.Background = Outcome.panicked ⟨"error"⟩
      ∧ Predicate.Must positivePredicate Context.Background 3
        = Outcome.returned (Context.WithValue Context.Background "k" 1, true)
      ∧ Predicate.Must failingPredicate Context.Background 3 = Outcome.panicked ⟨"error"⟩ :=
  ⟨(C5_Supplier_Predicate_Must oneSupplier positivePredicate Context.Background 3).1.1
      _ _ rfl,
   (C5_Supplier_Predicate_Must failingSupplier positivePredicate Context.Background 3).1.2
      _ _ _ rfl,
   (C5_Supplier_Predicate_Must oneSupplier positivePredicate Context.Background 3).2.1
      _ _ rfl,
   (C5_Supplier_Predicate_Must oneSupplier failingPredicate Context.Background 3).2.2
      _ _ _ rfl⟩

/-! ## Must on the pure fallible shapes -/

/-- C6: for each pure fallible shape (`PureFunc`, `PureUnary`, `PureBiFunc`,
`PurePredicate`, `PureSupplier`, `PureConsumer`), the `Must` wrapper panics if and
only if the wrapped call returns a non-nil failure, the panic carries that
failure, and otherwise the wrapper returns exactly the value of the wrapped call. -/
theorem C6_pure_fallible_Must {T U R S V : Type} (f : PureFunc T R) (g : PureUnary T)
    (h : PureBiFunc T U R) (p : PurePredicate T) (s : PureSupplier S) (c : PureConsumer V)
    (t : T) (u : U) (w : V) :
    (((PureFunc.Must f t).aborts = true ↔ (f t).2 ≠ none)
      ∧ (∀ err, (f t).2 = some err → PureFunc.Must f t = Outcome.panicked err)
      ∧ ((f t).2 = none → PureFunc.Must f t = Outcome.returned (f t).1))
    ∧ (((PureUnary.Must g t).aborts = true ↔ (g t).2 ≠ none)
      ∧ (∀ err, (g t).2 = some err → PureUnary.Must g t = Outcome.panicked err)
      ∧ ((g t).2 = none → PureUnary.Must g t = Outcome.returned (g t).1))
    ∧ (((PureBiFunc.Must h t u).aborts = true ↔ (h t u).2 ≠ none)
      ∧ (∀ err, (h t u).2 = some err → PureBiFunc.Must h t u = Outcome.panicked err)
      ∧ ((h t u).2 = none → PureBiFunc.Must h t u = Outcome.returned (h t u).1))
    ∧ (((PurePredicate.Must p t).aborts = true ↔ (p t).2 ≠ none)
      ∧ (∀ err, (p t).2 = some err → PurePredicate.Must p t = Outcome.panicked err)
      ∧ ((p t).2 = none → PurePredicate.Must p t = Outcome.returned (p t).1))
    ∧ (((PureSupplier.Must s ()).aborts = true ↔ (s ()).2 ≠ none)
      ∧ (∀ err, (s ()).2 = some err → PureSupplier.Must s () = Outcome.panicked err)
      ∧ ((s ()).2 = none → PureSupplier.Must s () = Outcome.returned (s ()).1))
    ∧ (((PureConsumer.Must c w).aborts = true ↔ c w ≠ none)
      ∧ (∀ err, c w = some err → PureConsumer.Must c w = Outcome.panicked err)
      ∧ (c w = none → PureConsumer.Must c w = Outcome.returned ())) := by
  refine ⟨?_, ?_, ?_, ?_, ?_, ?_⟩
  · rcases hf : f t with ⟨v, _ | e⟩ <;> simp [PureFunc.Must, hf, Outcome.aborts]
  · rcases hg : g t with ⟨v, _ | e⟩ <;> simp [PureUnary.Must, hg, Outcome.aborts]
  · rcases hh : h t u with ⟨v, _ | e⟩ <;> simp [PureBiFunc.Must, hh, Outcome.aborts]
  · rcases hp : p t with ⟨v, _ | e⟩ <;> simp [PurePredicate.Must, hp, Outcome.aborts]
  · rcases hs : s () with ⟨v, _ | e⟩ <;> simp [PureSupplier.Must, hs, Outcome.aborts]
  · rcases hc : c w with _ | e <;> simp [PureConsumer.Must, hc, Outcome.aborts]

/-- Witness for C6: a failing pure function, a succeeding pure unary, a failing
division, a succeeding predicate, a failing supplier and a failing consumer. -/
theorem C6_pure_fallible_Must_witness :
    PureFunc.Must halfPureFunc 3 = Outcome.panicked ⟨"odd"⟩
      ∧ PureUnary.Must halfPureFunc 4 = Outcome.returned 2
      ∧ PureBiFunc.Must divPureBiFunc 7 0 = Outcome.panicked ⟨"division by zero"⟩
      ∧ PurePredicate.Must evenPurePredicate 4 = Outcome.returned true
      ∧ PureSupplier.Must failingPureSupplier () = Outcome.panicked ⟨"error"⟩
      ∧ PureConsumer.Must nonEmptyPureConsumer "" = Outcome.panicked ⟨"empty"⟩ :=
  ⟨(C6_pure_fallible_Must halfPureFunc halfPureFunc divPureBiFunc evenPurePredicate
      failingPureSupplier nonEmptyPureConsumer 3 0 "").1.2.1 _ (by decide),
   (C6_pure_fallible_Must halfPureFunc halfPureFunc divPureBiFunc evenPurePredicate
      failingPureSupplier nonEmptyPureConsumer 4 0 "").2.1.2.2 (by decide),
   (C6_pure_fallible_Must halfPureFunc halfPureFunc divPureBiFunc evenPurePredicate
      failingPureSupplier nonEmptyPureConsumer 7 0 "").2.2.1.2.1 _ (by decide),
   (C6_pure_fallible_Must halfPureFunc halfPureFunc divPureBiFunc evenPurePredicate
      failingPureSupplier nonEmptyPureConsumer 4 0 "").2.2.2.1.2.2 (by decide),
   (C6_pure_fallible_Must halfPureFunc halfPureFunc divPureBiFunc evenPurePredicate
      failingPureSupplier nonEmptyPureConsumer 4 0 "").2.2.2.2.1.2.1 _ (by decide),
   (C6_pure_fallible_Must halfPureFunc halfPureFunc divPureBiFunc evenPurePredicate
      failingPureSupplier nonEmptyPureConsumer 4 0 "").2.2.2.2.2.2.1 _ (by decide)⟩

/-! ## Pure on the context-carrying shapes -/

/-- C7: for `Func`, `Unary` and `BiFunc`, `Pure` returns the value and the failure
of the call on the background context, the value also when the failure is
non-nil; the returned context is dropped. -/
theorem C7_Func_Unary_BiFunc_Pure {T U R : Type} (f : Func T R) (g : Unary T)
    (h : BiFunc T U R) (t : T) (u : U) :
    (∀ ctx1 v err, f Context.Background t = (ctx1, v, err) → Func.Pure f t = (v, err))
      ∧ (∀ ctx1 v err, g Context.Background t = (ctx1, v, err) → Unary.Pure g t = (v, err))
      ∧ (∀ ctx1 v err, h Context.Background t u = (ctx1, v, err) →
          BiFunc.Pure h t u = (v, err)) := by
  refine ⟨?_, ?_, ?_⟩
  · intro ctx1 v err hf
    simp [Func.Pure, hf]
  · intro ctx1 v err hg
    simp [Unary.Pure, hg]
  · intro ctx1 v err hh
    simp [BiFunc.Pure, hh]

/-- Witness for C7: a succeeding `Func`, and a `Unary` and a `BiFunc` that fail
while returning a value. -/
theorem C7_Func_Unary_BiFunc_Pure_witness :
    Func.Pure recordFunc 2 = (3, none)
      ∧ Unary.Pure failingFunc 2 = (3, some ⟨"error"⟩)
      ∧ BiFunc.Pure failingBiFunc 2 4 = (6, some ⟨"error"⟩) :=
  ⟨(C7_Func_Unary_BiFunc_Pure recordFunc failingFunc failingBiFunc 2 4).1 _ _ _ rfl,
   (C7_Func_Unary_BiFunc_Pure recordFunc failingFunc failingBiFunc 2 4).2.1 _ _ _ rfl,
   (C7_Func_Unary_BiFunc_Pure recordFunc failingFunc failingBiFunc 2 4).2.2 _ _ _ rfl⟩

/-- C8: for `Consumer` and `BiConsumer`, `Pure` returns exactly the failure
component of the call on the background context (nil when the consumer
succeeds); the returned context is dropped. -/
theorem C8_Consumer_BiConsumer_Pure {T U : Type} (c : Consumer T) (d : BiConsumer T U)
    (t : T) (u : U) :
    (∀ ctx1 err, c Context.Background t = (ctx1, err) → Consumer.Pure c t = err)
      ∧ (∀ ctx1 err, d Context.Background t u = (ctx1, err) → BiConsumer.Pure d t u = err) := by
  refine ⟨?_, ?_⟩
  · intro ctx1 err hc
    simp [Consumer.Pure, hc]
  · intro ctx1 err hd
    simp [BiConsumer.Pure, hd]

/-- Witness for C8: the counting consumer succeeds, the failing two-input
consumer of the test suite fails. -/
theorem C8_Consumer_BiConsumer_Pure_witness :
    Consumer.Pure incConsumer "" = none
      ∧ BiConsumer.Pure failingBiConsumer "" "" = some ⟨""⟩ :=
  ⟨(C8_Consumer_BiConsumer_Pure incConsumer failingBiConsumer "" "").1 _ _ rfl,
   (C8_Consumer_BiConsumer_Pure incConsumer failingBiConsumer "" "").2 _ _ rfl⟩

/-- C9: for `Predicate` and `Supplier`, `Pure` returns the boolean (value) and the
failure of the call on the background context, whatever context the call
returns, the nil context included. -/
theorem C9_Predicate_Supplier_Pure {T R : Type} (p : Predicate T) (s : Supplier R) (t : T) :
    (∀ ctx1 b err, p Context.Background t = (ctx1, b, err) → Predicate.Pure p t = (b, err))
      ∧ (∀ ctx1 v err, s Context.Background = (ctx1, v, err) → Supplier.Pure s () = (v, err)) := by
  refine ⟨?_, ?_⟩
  · intro ctx1 b err hp
    simp [Predicate.Pure, hp]
  · intro ctx1 v err hs
    simp [Supplier.Pure, hs]

/-- Witness for C9: a failing predicate, and the supplier of the test suite that
returns a nil context. -/
theorem C9_Predicate_Supplier_Pure_witness :
    Predicate.Pure failingPredicate 3 = (true, some ⟨"error"⟩)
      ∧ nilCtxSupplier Context.Background = (Context.nil, "", none)
      ∧ Supplier.Pure nilCtxSupplier () = ("", none) :=
  ⟨(C9_Predicate_Supplier_Pure failingPredicate nilCtxSupplier 3).1 _ _ _ rfl,
   rfl,
   (C9_Predicate_Supplier_Pure failingPredicate nilCtxSupplier 3).2 Context.nil _ _ rfl⟩

/-- C10: for each context-carrying infallible shape (`MustFunc`, `MustUnary`,
`MustBiFunc`, `MustPredicate`, `MustSupplier`), `Pure` returns the value component
of the call on the background context, and it panics exactly when that call
panics. -/
theorem C10_Must_shapes_Pure {T U R S : Type} (f : MustFunc T R) (g : MustUnary T)
    (h : MustBiFunc T U R) (p : MustPredicate T) (s : MustSupplier S) (t : T) (u : U) :
    ((∀ ctx1 v, f Context.Background t = Outcome.returned (ctx1, v) →
          MustFunc.Pure f t = Outcome.returned v)
      ∧ ((MustFunc.Pure f t).aborts = true ↔ (f Context.Background t).aborts = true))
    ∧ ((∀ ctx1 v, g Context.Background t = Outcome.returned (ctx1, v) →
          MustUnary.Pure g t = Outcome.returned v)
      ∧ ((MustUnary.Pure g t).aborts = true ↔ (g Context.Background t).aborts = true))
    ∧ ((∀ ctx1 v, h Context.Background t u = Outcome.returned (ctx1, v) →
          MustBiFunc.Pure h t u = Outcome.returned v)
      ∧ ((MustBiFunc.Pure h t u).aborts = true ↔ (h Context.Background t u).aborts = true))
    ∧ ((∀ ctx1 b, p Context.Background t = Outcome.returned (ctx1, b) →
          MustPredicate.Pure p t = Outcome.returned b)
      ∧ ((MustPredicate.Pure p t).aborts = true ↔ (p Context.Background t).aborts = true))
    ∧ ((∀ ctx1 v, s Context.Background = Outcome.returned (ctx1, v) →
          MustSupplier.Pure s () = Outcome.returned v)
      ∧ ((MustSupplier.Pure s ()).aborts = true ↔ (s Context.Background).aborts = true)) := by
  refine ⟨?_, ?_, ?_, ?_, ?_⟩
  · rcases hf : f Context.Background t with ⟨c, v⟩ | e <;>
      simp [MustFunc.Pure, hf, Outcome.aborts]
  · rcases hg : g Context.Background t with ⟨c, v⟩ | e <;>
      simp [MustUnary.Pure, hg, Outcome.aborts]
  · rcases hh : h Context.Background t u with ⟨c, v⟩ | e <;>
      simp [MustBiFunc.Pure, hh, Outcome.aborts]
  · rcases hp : p Context.Background t with ⟨c, v⟩ | e <;>
      simp [MustPredicate.Pure, hp, Outcome.aborts]
  · rcases hs : s Context.Background with ⟨c, v⟩ | e <;>
      simp [MustSupplier.Pure, hs, Outcome.aborts]

/-- Witness for C10: the `Must` of a recording function as in `ExampleFunc`, a
guarded unary, a division, a predicate and a supplier returning a nil context;
and the guarded function panics through `Pure` on a negative input. -/
theorem C10_Must_shapes_Pure_witness :
    MustFunc.Pure (Func.Must recordFunc) 2 = Outcome.returned 3
      ∧ MustUnary.Pure guardedMustFunc 2 = Outcome.returned 3
      ∧ MustBiFunc.Pure divMustBiFunc 6 2 = Outcome.returned 3
      ∧ MustPredicate.Pure evenMustPredicate 2 = Outcome.returned true
      ∧ MustSupplier.Pure nilCtxMustSupplier () = Outcome.returned ""
      ∧ (MustFunc.Pure guardedMustFunc (-1)).aborts = true :=
  ⟨(C10_Must_shapes_Pure (Func.Must recordFunc) guardedMustFunc divMustBiFunc
      evenMustPredicate nilCtxMustSupplier 2 2).1.1 _ _ rfl,
   (C10_Must_shapes_Pure (Func.Must recordFunc) guardedMustFunc divMustBiFunc
      evenMustPredicate nilCtxMustSupplier 2 2).2.1.1 _ _ rfl,
   (C10_Must_shapes_Pure (Func.Must recordFunc) guardedMustFunc divMustBiFunc
      evenMustPredicate nilCtxMustSupplier 6 2).2.2.1.1 _ _ rfl,
   (C10_Must_shapes_Pure (Func.Must recordFunc) guardedMustFunc divMustBiFunc
      evenMustPredicate nilCtxMustSupplier 2 2).2.2.2.1.1 _ _ rfl,
   (C10_Must_shapes_Pure (Func.Must recordFunc) guardedMustFunc divMustBiFunc
      evenMustPredicate nilCtxMustSupplier 2 2).2.2.2.2.1 _ _ rfl,
   (C10_Must_shapes_Pure guardedMustFunc guardedMustFunc divMustBiFunc
      evenMustPredicate nilCtxMustSupplier (-1) 2).1.2.2 (by decide)⟩

/-! ## Then -/

/-- C11: when the first consumer fails, `Consumer.Then` returns the first
consumer's context and failure, and that result is the same whatever the second
consumer is. -/
theorem C11_Consumer_Then_first_fails {T : Type} (a b b2 : Consumer T) (ctx ctx1 : Context)
    (t : T) (err : Err) (h : a ctx t = (ctx1, some err)) :
    Consumer.Then a b ctx t = (ctx1, some err)
      ∧ Consumer.Then a b ctx t = Consumer.Then a b2 ctx t := by
  simp [Consumer.Then, h]

/-- Witness for C11: the failing counting consumer followed by a counting
consumer; the counter stays at 1. -/
theorem C11_Consumer_Then_first_fails_witness :
    incFailConsumer Context.Background "" = (Context.WithValue Context.Background "k" 1, some ⟨""⟩)
      ∧ Consumer.Then incFailConsumer incConsumer Context.Background ""
        = (Context.WithValue Context.Background "k" 1, some ⟨""⟩)
      ∧ Consumer.Then incFailConsumer incConsumer Context.Background ""
        = Consumer.Then incFailConsumer failIfCountedConsumer Context.Background "" :=
  ⟨rfl,
   C11_Consumer_Then_first_fails incFailConsumer incConsumer failIfCountedConsumer
      Context.Background _ "" ⟨""⟩ rfl⟩

/-- C12: when the first consumer succeeds, `Consumer.Then` is the second consumer
applied to the first consumer's context and the original input; two counting
consumers started from the background context yield counter 2. -/
theorem C12_Consumer_Then_first_succeeds {T : Type} (a b : Consumer T) (ctx ctx1 : Context)
    (t : T) (h : a ctx t = (ctx1, none)) :
    Consumer.Then a b ctx t = b ctx1 t
      ∧ getCtxValue (Consumer.Then incConsumer incConsumer Context.Background "").1 = 2
      ∧ (Consumer.Then incConsumer incConsumer Context.Background "").2 = none := by
  refine ⟨?_, by decide, by decide⟩
  simp [Consumer.Then, h]

/-- Witness for C12: a counting consumer followed by one that fails once the
counter is positive; the second sees the first's context and fails. -/
theorem C12_Consumer_Then_first_succeeds_witness :
    incConsumer Context.Background "" = (Context.WithValue Context.Background "k" 1, none)
      ∧ Consumer.Then incConsumer failIfCountedConsumer Context.Background ""
        = (Context.WithValue Context.Background "k" 1, some ⟨"counted"⟩) :=
  ⟨rfl,
   (C12_Consumer_Then_first_succeeds incConsumer failIfCountedConsumer
      Context.Background _ "" rfl).1.trans (by decide)⟩

/-- C13: `Unary.Then` applies the second function to the context and the value
produced by the first when the first succeeds, and returns the first function's
context, value and failure, whatever the second function is, when the first
fails. -/
theorem C13_Unary_Then {T : Type} (a b b2 : Unary T) (ctx : Context) (t : T) :
    (∀ ctx1 v1, a ctx t = (ctx1, v1, none) → Unary.Then a b ctx t = b ctx1 v1)
      ∧ (∀ ctx1 v1 err1, a ctx t = (ctx1, v1, some err1) →
          Unary.Then a b ctx t = (ctx1, v1, some err1)
            ∧ Unary.Then a b ctx t = Unary.Then a b2 ctx t) := by
  constructor
  · intro ctx1 v1 h
    simp [Unary.Then, h]
  · intro ctx1 v1 err1 h
    simp [Unary.Then, h]

/-- Witness for C13: successor then doubling gives `2 * (3 + 1)` with counter 2;
a failing first step keeps its own value and counter 1. -/
theorem C13_Unary_Then_witness :
    Unary.Then succUnary doubleUnary Context.Background 3
        = (Context.WithValue (Context.WithValue Context.Background "k" 1) "k" 2, 8, none)
      ∧ Unary.Then failingUnary doubleUnary Context.Background 3
        = (Context.WithValue Context.Background "k" 1, -3, some ⟨"unary"⟩) :=
  ⟨((C13_Unary_Then succUnary doubleUnary succUnary Context.Background 3).1 _ _ rfl).trans
      (by decide),
   ((C13_Unary_Then failingUnary doubleUnary succUnary Context.Background 3).2 _ _ _ rfl).1⟩

/-- C14: `PureConsumer.Then` returns the first consumer's failure when it is
non-nil and the second consumer's result otherwise; `PureUnary.Then` returns the
first function's value and failure when the failure is non-nil and the second
function applied to the first's value otherwise. In both, a failing first
operand makes the result the same whatever the second operand is. -/
theorem C14_PureConsumer_PureUnary_Then {T V : Type} (a b b2 : PureConsumer V)
    (f g g2 : PureUnary T) (w : V) (t : T) :
    ((∀ err, a w = some err →
          PureConsumer.Then a b w = some err
            ∧ PureConsumer.Then a b w = PureConsumer.Then a b2 w)
      ∧ (a w = none → PureConsumer.Then a b w = b w))
    ∧ ((∀ v1 err1, f t = (v1, some err1) →
          PureUnary.Then f g t = (v1, some err1)
            ∧ PureUnary.Then f g t = PureUnary.Then f g2 t)
      ∧ (∀ v1, f t = (v1, none) → PureUnary.Then f g t = g v1)) := by
  refine ⟨⟨?_, ?_⟩, ⟨?_, ?_⟩⟩
  · intro err h
    simp [PureConsumer.Then, h]
  · intro h
    simp [PureConsumer.Then, h]
  · intro v1 err1 h
    simp [PureUnary.Then, h]
  · intro v1 h
    simp [PureUnary.Then, h]

/-- Witness for C14: on `"x"` the first pure consumer passes and the second
rejects; on `""` the first rejects; halving 12 twice gives 3; halving 6 twice
fails at the second step with value 3; halving 3 fails at the first step. -/
theorem C14_PureConsumer_PureUnary_Then_witness :
    PureConsumer.Then nonEmptyPureConsumer notXPureConsumer "x" = some ⟨"x"⟩
      ∧ PureConsumer.Then nonEmptyPureConsumer notXPureConsumer "" = some ⟨"empty"⟩
      ∧ PureUnary.Then halfPureFunc halfPureFunc 12 = (3, none)
      ∧ PureUnary.Then halfPureFunc halfPureFunc 6 = (3, some ⟨"odd"⟩)
      ∧ PureUnary.Then halfPureFunc halfPureFunc 3 = (3, some ⟨"odd"⟩) :=
  ⟨((C14_PureConsumer_PureUnary_Then nonEmptyPureConsumer notXPureConsumer
        nonEmptyPureConsumer halfPureFunc halfPureFunc halfPureFunc "x" 12).1.2
        (by decide)).trans (by decide),
   ((C14_PureConsumer_PureUnary_Then nonEmptyPureConsumer notXPureConsumer
        nonEmptyPureConsumer halfPureFunc halfPureFunc halfPureFunc "" 12).1.1 _
        (by decide)).1,
   ((C14_PureConsumer_PureUnary_Then nonEmptyPureConsumer notXPureConsumer
        nonEmptyPureConsumer halfPureFunc halfPureFunc halfPureFunc "" 12).2.2 6
        (by decide)).trans (by decide),
   ((C14_PureConsumer_PureUnary_Then nonEmptyPureConsumer notXPureConsumer
        nonEmptyPureConsumer halfPureFunc halfPureFunc halfPureFunc "" 6).2.2 3
        (by decide)).trans (by decide),
   ((C14_PureConsumer_PureUnary_Then nonEmptyPureConsumer notXPureConsumer
        nonEmptyPureConsumer halfPureFunc halfPureFunc halfPureFunc "" 3).2.1 3 ⟨"odd"⟩
        (by decide)).1⟩

/-- C15: for the infallible shapes `Then` is composition: `MustConsumer.Then` is
the second consumer applied to the context the first returns and the original
input; `MustUnary.Then` is the second function applied to the context and
value the first returns; `PureMustUnary.Then` is the second function applied to
the value the first returns. A panic of the first operand, which is evaluated
first, is the panic of the composite. -/
theorem C15_infallible_Then {T V : Type} (a b : MustConsumer V) (f g : MustUnary T)
    (p q : PureMustUnary T) (ctx : Context) (w : V) (t : T) :
    ((∀ ctx1, a ctx w = Outcome.returned ctx1 → MustConsumer.Then a b ctx w = b ctx1 w)
      ∧ (∀ e, a ctx w = Outcome.panicked e → MustConsumer.Then a b ctx w = Outcome.panicked e))
    ∧ ((∀ ctx1 v1, f ctx t = Outcome.returned (ctx1, v1) → MustUnary.Then f g ctx t = g ctx1 v1)
      ∧ (∀ e, f ctx t = Outcome.panicked e → MustUnary.Then f g ctx t = Outcome.panicked e))
    ∧ ((∀ v1, p t = Outcome.returned v1 → PureMustUnary.Then p q t = q v1)
      ∧ (∀ e, p t = Outcome.panicked e → PureMustUnary.Then p q t = Outcome.panicked e)) := by
  refine ⟨⟨?_, ?_⟩, ⟨?_, ?_⟩, ⟨?_, ?_⟩⟩
  · intro ctx1 h
    simp [MustConsumer.Then, h]
  · intro e h
    simp [MustConsumer.Then, h]
  · intro ctx1 v1 h
    simp [MustUnary.Then, h]
  · intro e h
    simp [MustUnary.Then, h]
  · intro v1 h
    simp [PureMustUnary.Then, h]
  · intro e h
    simp [PureMustUnary.Then, h]

/-- Witness for C15: two counting consumers give counter 2; the two steps of
`ExampleUnary` map 10 to 13 and leave 2 under `"k"`; successor then guarded
doubling maps 3 to 8; a guarded first step panics on a negative input. -/
theorem C15_infallible_Then_witness :
    MustConsumer.Then incMustConsumer incMustConsumer Context.Background ""
        = Outcome.returned
            (Context.WithValue (Context.WithValue Context.Background "k" 1) "k" 2)
      ∧ MustUnary.Then exampleFirstMustUnary exampleSecondMustUnary Context.Background 10
        = Outcome.returned
            (Context.WithValue (Context.WithValue Context.Background "k" 1) "k" 2, 13)
      ∧ PureMustUnary.Then succPureMustUnary guardedPureMustUnary 3 = Outcome.returned 8
      ∧ PureMustUnary.Then guardedPureMustUnary succPureMustUnary (-1)
        = Outcome.panicked ⟨"negative"⟩ :=
  ⟨((C15_infallible_Then incMustConsumer incMustConsumer exampleFirstMustUnary
        exampleSecondMustUnary succPureMustUnary guardedPureMustUnary
        Context.Background "" 10).1.1 _ rfl).trans (by decide),
   ((C15_infallible_Then incMustConsumer incMustConsumer exampleFirstMustUnary
        exampleSecondMustUnary succPureMustUnary guardedPureMustUnary
        Context.Background "" 10).2.1.1 _ _ rfl).trans (by decide),
   ((C15_infallible_Then incMustConsumer incMustConsumer exampleFirstMustUnary
        exampleSecondMustUnary succPureMustUnary guardedPureMustUnary
        Context.Background "" 3).2.2.1 _ rfl).trans (by decide),
   (C15_infallible_Then incMustConsumer incMustConsumer exampleFirstMustUnary
        exampleSecondMustUnary guardedPureMustUnary succPureMustUnary
        Context.Background "" (-1)).2.2.2 _ (by decide)⟩

/-! ## And, Or, Not on context-carrying fallible predicates -/

/-- C16: `Predicate.And` returns the first predicate's whole result, whatever the
second predicate is, when the first yields false or fails; otherwise (true and
no failure) it is the second predicate applied to the first's context and the
same input. A true-then-false pair of counting predicates gives false, no
failure and counter 2. -/
theorem C16_Predicate_And {T : Type} (a b b2 : Predicate T) (ctx : Context) (t : T) :
    (∀ ctx1 v1 err1, a ctx t = (ctx1, v1, err1) → (v1 = false ∨ err1 ≠ none) →
        Predicate.And a b ctx t = (ctx1, v1, err1)
          ∧ Predicate.And a b ctx t = Predicate.And a b2 ctx t)
      ∧ (∀ ctx1, a ctx t = (ctx1, true, none) → Predicate.And a b ctx t = b ctx1 t)
      ∧ Predicate.And truePredicate falsePredicate Context.Background ""
        = (Context.WithValue (Context.WithValue Context.Background "k" 1) "k" 2, false, none) := by
  refine ⟨?_, ?_, by decide⟩
  · intro ctx1 v1 err1 h hv
    simp [Predicate.And, h, hv]
  · intro ctx1 h
    simp [Predicate.And, h]

/-- Witness for C16: a false first predicate, a failing first predicate with
boolean true, and a true first predicate followed by a failing one. -/
theorem C16_Predicate_And_witness :
    Predicate.And falsePredicate errPredicate Context.Background ""
        = (Context.WithValue Context.Background "k" 1, false, none)
      ∧ Predicate.And errPredicate falsePredicate Context.Background ""
        = (Context.WithValue Context.Background "k" 1, true, some ⟨""⟩)
      ∧ Predicate.And truePredicate errPredicate Context.Background ""
        = (Context.WithValue (Context.WithValue Context.Background "k" 1) "k" 2,
            true, some ⟨""⟩) :=
  ⟨((C16_Predicate_And falsePredicate errPredicate truePredicate Context.Background "").1
        _ _ _ rfl (Or.inl rfl)).1,
   ((C16_Predicate_And errPredicate falsePredicate truePredicate Context.Background "").1
        _ _ _ rfl (Or.inr (by decide))).1,
   ((C16_Predicate_And truePredicate errPredicate truePredicate Context.Background "").2.1
        _ rfl).trans (by decide)⟩

/-- C17 as stated fails: the first predicate succeeds with false, the second
would fail on the first's context, and the conjunction returns no failure. -/
theorem C17_Predicate_And_failure_counterexample :
    (falsePredicate Context.Background "").2.2 = none
      ∧ (errPredicate (falsePredicate Context.Background "").1 "").2.2 = some ⟨""⟩
      ∧ (Predicate.And falsePredicate errPredicate Context.Background "").2.2 = none
      ∧ ¬ (∀ (a b : Predicate String) (ctx : Context) (t : String),
            ((a ctx t).2.2 ≠ none → (Predicate.And a b ctx t).2.2 = (a ctx t).2.2)
              ∧ ((a ctx t).2.2 = none →
                  (Predicate.And a b ctx t).2.2 = (b (a ctx t).1 t).2.2)) := by
  refine ⟨by decide, by decide, by decide, fun h => ?_⟩
  have h1 := (h falsePredicate errPredicate Context.Background "").2 (by decide)
  revert h1
  decide

/-- C17 (amended): the failure returned by `Predicate.And` is the first
predicate's failure when the first fails; when the first succeeds with true it
is the failure the second returns on the first's context and the same input;
when the first succeeds with false it is nil. -/
theorem C17_Predicate_And_failure {T : Type} (a b : Predicate T) (ctx : Context) (t : T) :
    (∀ ctx1 v1 err, a ctx t = (ctx1, v1, some err) →
        (Predicate.And a b ctx t).2.2 = some err)
      ∧ (∀ ctx1, a ctx t = (ctx1, true, none) →
          (Predicate.And a b ctx t).2.2 = (b ctx1 t).2.2)
      ∧ (∀ ctx1, a ctx t = (ctx1, false, none) →
          (Predicate.And a b ctx t).2.2 = none) := by
  refine ⟨?_, ?_, ?_⟩
  · intro ctx1 v1 err h
    simp [Predicate.And, h]
  · intro ctx1 h
    simp [Predicate.And, h]
  · intro ctx1 h
    simp [Predicate.And, h]

/-- Witness for C17 (amended): a failing first predicate, a true first predicate
followed by a failing one, and a false first predicate followed by a failing one. -/
theorem C17_Predicate_And_failure_witness :
    (Predicate.And errFalsePredicate errPredicate Context.Background "").2.2 = some ⟨"failed"⟩
      ∧ (Predicate.And truePredicate errPredicate Context.Background "").2.2 = some ⟨""⟩
      ∧ (Predicate.And falsePredicate errPredicate Context.Background "").2.2 = none :=
  ⟨(C17_Predicate_And_failure errFalsePredicate errPredicate Context.Background "").1
      _ _ _ rfl,
   ((C17_Predicate_And_failure truePredicate errPredicate Context.Background "").2.1
      _ rfl).trans (by decide),
   (C17_Predicate_And_failure falsePredicate errPredicate Context.Background "").2.2
      _ rfl⟩

/-- C18: when the first predicate does not fail, the boolean returned by
`Predicate.And` is the conjunction of the first predicate's boolean and the
boolean the second returns on the first's context and the same input. -/
theorem C18_Predicate_And_boolean {T : Type} (a b : Predicate T) (ctx ctx1 : Context)
    (t : T) (v1 : Bool) (h : a ctx t = (ctx1, v1, none)) :
    (Predicate.And a b ctx t).2.1 = (v1 && (b ctx1 t).2.1) := by
  cases v1 <;> simp [Predicate.And, h]

/-- Witness for C18: true and false gives false. -/
theorem C18_Predicate_And_boolean_witness :
    truePredicate Context.Background "" = (Context.WithValue Context.Background "k" 1, true, none)
      ∧ (Predicate.And truePredicate falsePredicate Context.Background "").2.1
        = (true && (falsePredicate (Context.WithValue Context.Background "k" 1) "").2.1)
      ∧ (Predicate.And truePredicate falsePredicate Context.Background "").2.1 = false :=
  ⟨rfl,
   C18_Predicate_And_boolean truePredicate falsePredicate Context.Background _ "" true rfl,
   (C18_Predicate_And_boolean truePredicate falsePredicate Context.Background _ "" true
      rfl).trans (by decide)⟩

/-- C19: `Predicate.Or` returns the first predicate's whole result, whatever the
second predicate is, when the first yields true or fails; otherwise (false and
no failure) it is the second predicate applied to the first's context and the
same input. A true first counting predicate gives true, no failure and counter 1. -/
theorem C19_Predicate_Or {T : Type} (a b b2 : Predicate T) (ctx : Context) (t : T) :
    (∀ ctx1 v1 err1, a ctx t = (ctx1, v1, err1) → (v1 = true ∨ err1 ≠ none) →
        Predicate.Or a b ctx t = (ctx1, v1, err1)
          ∧ Predicate.Or a b ctx t = Predicate.Or a b2 ctx t)
      ∧ (∀ ctx1, a ctx t = (ctx1, false, none) → Predicate.Or a b ctx t = b ctx1 t)
      ∧ Predicate.Or truePredicate falsePredicate Context.Background ""
        = (Context.WithValue Context.Background "k" 1, true, none) := by
  refine ⟨?_, ?_, by decide⟩
  · intro ctx1 v1 err1 h hv
    simp [Predicate.Or, h, hv]
  · intro ctx1 h
    simp [Predicate.Or, h]

/-- Witness for C19: a true first predicate, a failing first predicate with
boolean false, and a false first predicate followed by a failing one. -/
theorem C19_Predicate_Or_witness :
    Predicate.Or truePredicate errPredicate Context.Background ""
        = (Context.WithValue Context.Background "k" 1, true, none)
      ∧ Predicate.Or errFalsePredicate truePredicate Context.Background ""
        = (Context.WithValue Context.Background "k" 1, false, some ⟨"failed"⟩)
      ∧ Predicate.Or falsePredicate errPredicate Context.Background ""
        = (Context.WithValue (Context.WithValue Context.Background "k" 1) "k" 2,
            true, some ⟨""⟩) :=
  ⟨((C19_Predicate_Or truePredicate errPredicate falsePredicate Context.Background "").1
        _ _ _ rfl (Or.inl rfl)).1,
   ((C19_Predicate_Or errFalsePredicate truePredicate falsePredicate Context.Background "").1
        _ _ _ rfl (Or.inr (by decide))).1,
   ((C19_Predicate_Or falsePredicate errPredicate truePredicate Context.Background "").2.1
        _ rfl).trans (by decide)⟩

/-- C20: `Predicate.Not` returns the predicate's context, the negation of its
boolean and its failure, on success and on failure alike. -/
theorem C20_Predicate_Not {T : Type} (a : Predicate T) (ctx : Context) (t : T) :
    ∀ ctx1 v1 err1, a ctx t = (ctx1, v1, err1) →
      Predicate.Not a ctx t = (ctx1, !v1, err1) := by
  intro ctx1 v1 err1 h
  simp [Predicate.Not, h]

/-- Witness for C20: a succeeding false predicate and a failing true predicate. -/
theorem C20_Predicate_Not_witness :
    Predicate.Not falsePredicate Context.Background ""
        = (Context.WithValue Context.Background "k" 1, true, none)
      ∧ Predicate.Not errPredicate Context.Background ""
        = (Context.WithValue Context.Background "k" 1, false, some ⟨""⟩) :=
  ⟨C20_Predicate_Not falsePredicate Context.Background "" _ _ _ rfl,
   C20_Predicate_Not errPredicate Context.Background "" _ _ _ rfl⟩

/-! ## And, Or, Not on the other predicate shapes -/

/-- C21: for pure infallible predicates, `And`, `Or` and `Not` are the boolean
conjunction, disjunction and negation of the operands' results; the second
operand is not evaluated when the first already decides the result (false for
`And`, true for `Or`), so the result is then the same whatever the second
operand is, even one that panics. -/
theorem C21_PureMustPredicate_logic {T : Type} (p q q2 : PureMustPredicate T) (t : T) :
    ((∀ v1 v2, p t = Outcome.returned v1 → q t = Outcome.returned v2 →
          PureMustPredicate.And p q t = Outcome.returned (v1 && v2))
      ∧ (p t = Outcome.returned false →
          PureMustPredicate.And p q t = Outcome.returned false
            ∧ PureMustPredicate.And p q t = PureMustPredicate.And p q2 t)
      ∧ (p t = Outcome.returned true → PureMustPredicate.And p q t = q t))
    ∧ ((∀ v1 v2, p t = Outcome.returned v1 → q t = Outcome.returned v2 →
          PureMustPredicate.Or p q t = Outcome.returned (v1 || v2))
      ∧ (p t = Outcome.returned true →
          PureMustPredicate.Or p q t = Outcome.returned true
            ∧ PureMustPredicate.Or p q t = PureMustPredicate.Or p q2 t)
      ∧ (p t = Outcome.returned false → PureMustPredicate.Or p q t = q t))
    ∧ (∀ v1, p t = Outcome.returned v1 → PureMustPredicate.Not p t = Outcome.returned (!v1)) := by
  refine ⟨⟨?_, ?_, ?_⟩, ⟨?_, ?_, ?_⟩, ?_⟩
  · intro v1 v2 hp hq
    cases v1 <;> simp [PureMustPredicate.And, hp, hq]
  · intro hp
    simp [PureMustPredicate.And, hp]
  · intro hp
    simp [PureMustPredicate.And, hp]
  · intro v1 v2 hp hq
    cases v1 <;> simp [PureMustPredicate.Or, hp, hq]
  · intro hp
    simp [PureMustPredicate.Or, hp]
  · intro hp
    simp [PureMustPredicate.Or, hp]
  · intro v1 hp
    simp [PureMustPredicate.Not, hp]

/-- Witness for C21 at input 3: positive and even is false, positive or even is
true, not positive is false; at input -2 a false first operand of `And`, and at
input 3 a true first operand of `Or`, hide a panicking second operand. -/
theorem C21_PureMustPredicate_logic_witness :
    PureMustPredicate.And positivePureMustPredicate evenPureMustPredicate 3
        = Outcome.returned false
      ∧ PureMustPredicate.Or positivePureMustPredicate evenPureMustPredicate 3
        = Outcome.returned true
      ∧ PureMustPredicate.Not positivePureMustPredicate 3 = Outcome.returned false
      ∧ PureMustPredicate.And positivePureMustPredicate panicPureMustPredicate (-2)
        = Outcome.returned false
      ∧ PureMustPredicate.Or positivePureMustPredicate panicPureMustPredicate 3
        = Outcome.returned true :=
  ⟨(C21_PureMustPredicate_logic positivePureMustPredicate evenPureMustPredicate
      panicPureMustPredicate 3).1.1 true false (by decide) (by decide),
   (C21_PureMustPredicate_logic positivePureMustPredicate evenPureMustPredicate
      panicPureMustPredicate 3).2.1.1 true false (by decide) (by decide),
   (C21_PureMustPredicate_logic positivePureMustPredicate evenPureMustPredicate
      panicPureMustPredicate 3).2.2 true (by decide),
   ((C21_PureMustPredicate_logic positivePureMustPredicate panicPureMustPredicate
      evenPureMustPredicate (-2)).1.2.1 (by decide)).1,
   ((C21_PureMustPredicate_logic positivePureMustPredicate panicPureMustPredicate
      evenPureMustPredicate 3).2.1.2.1 (by decide)).1⟩

/-- C22: for infallible context-carrying predicates with first result
`(ctx1, v1)`: `And` returns `(ctx1, false)` when `v1` is false and is the second
predicate on `(ctx1, t)` otherwise; `Or` returns `(ctx1, true)` when `v1` is true
and is the second predicate on `(ctx1, t)` otherwise; the boolean is `v1 && v2`
(`v1 || v2`) and the context is that of the last predicate evaluated. -/
theorem C22_MustPredicate_And_Or {T : Type} (a b : MustPredicate T) (ctx ctx1 : Context)
    (t : T) (v1 : Bool) (h : a ctx t = Outcome.returned (ctx1, v1)) :
    ((v1 = false → MustPredicate.And a b ctx t = Outcome.returned (ctx1, false))
      ∧ (v1 = true → MustPredicate.And a b ctx t = b ctx1 t)
      ∧ (∀ ctx2 v2, b ctx1 t = Outcome.returned (ctx2, v2) →
          MustPredicate.And a b ctx t
            = Outcome.returned (if v1 = true then ctx2 else ctx1, v1 && v2)))
    ∧ ((v1 = true → MustPredicate.Or a b ctx t = Outcome.returned (ctx1, true))
      ∧ (v1 = false → MustPredicate.Or a b ctx t = b ctx1 t)
      ∧ (∀ ctx2 v2, b ctx1 t = Outcome.returned (ctx2, v2) →
          MustPredicate.Or a b ctx t
            = Outcome.returned (if v1 = true then ctx1 else ctx2, v1 || v2))) := by
  refine ⟨⟨?_, ?_, ?_⟩, ⟨?_, ?_, ?_⟩⟩
  · intro hv
    simp [MustPredicate.And, h, hv]
  · intro hv
    simp [MustPredicate.And, h, hv]
  · intro ctx2 v2 hb
    cases v1 <;> simp [MustPredicate.And, h, hb]
  · intro hv
    simp [MustPredicate.Or, h, hv]
  · intro hv
    simp [MustPredicate.Or, h, hv]
  · intro ctx2 v2 hb
    cases v1 <;> simp [MustPredicate.Or, h, hb]

/-- Witness for C22 on the predicates of `ExamplePredicate`: true-and-false
evaluates both (context 2, false); false-and-panicking stops at the first;
true-or-false stops at the first (context 1, true). -/
theorem C22_MustPredicate_And_Or_witness :
    MustPredicate.And (exampleMustPredicate 1 true) (exampleMustPredicate 2 false)
        Context.Background 0
        = Outcome.returned
            (Context.WithValue (Context.WithValue Context.Background "k" 1) "k" 2, false)
      ∧ MustPredicate.And (exampleMustPredicate 2 false) panicMustPredicate
        Context.Background 0
        = Outcome.returned (Context.WithValue Context.Background "k" 2, false)
      ∧ MustPredicate.Or (exampleMustPredicate 1 true) (exampleMustPredicate 2 false)
        Context.Background 0
        = Outcome.returned (Context.WithValue Context.Background "k" 1, true) :=
  ⟨(C22_MustPredicate_And_Or (exampleMustPredicate 1 true) (exampleMustPredicate 2 false)
      Context.Background _ 0 true rfl).1.2.2 _ _ rfl,
   (C22_MustPredicate_And_Or (exampleMustPredicate 2 false) panicMustPredicate
      Context.Background _ 0 false rfl).1.1 rfl,
   (C22_MustPredicate_And_Or (exampleMustPredicate 1 true) (exampleMustPredicate 2 false)
      Context.Background _ 0 true rfl).2.1 rfl⟩

/-- C23: for pure fallible predicates with first result `(v1, err1)`: `And`
returns `(v1, err1)` when `v1` is false or `err1` is non-nil and the second
predicate's result otherwise; `Or` returns `(v1, err1)` when `v1` is true or
`err1` is non-nil and the second predicate's result otherwise. So a false first
operand without failure gives `And` no failure, and a true first operand
without failure gives `Or` the result `(true, nil)`, whatever the second is. -/
theorem C23_PurePredicate_And_Or {T : Type} (a b : PurePredicate T) (t : T) :
    ((∀ v1 err1, a t = (v1, err1) → (v1 = false ∨ err1 ≠ none) →
          PurePredicate.And a b t = (v1, err1))
      ∧ (a t = (true, none) → PurePredicate.And a b t = b t)
      ∧ (a t = (false, none) → (PurePredicate.And a b t).2 = none))
    ∧ ((∀ v1 err1, a t = (v1, err1) → (v1 = true ∨ err1 ≠ none) →
          PurePredicate.Or a b t = (v1, err1))
      ∧ (a t = (false, none) → PurePredicate.Or a b t = b t)
      ∧ (a t = (true, none) → PurePredicate.Or a b t = (true, none))) := by
  refine ⟨⟨?_, ?_, ?_⟩, ⟨?_, ?_, ?_⟩⟩
  · intro v1 err1 h hv
    simp [PurePredicate.And, h, hv]
  · intro h
    simp [PurePredicate.And, h]
  · intro h
    simp [PurePredicate.And, h]
  · intro v1 err1 h hv
    simp [PurePredicate.Or, h, hv]
  · intro h
    simp [PurePredicate.Or, h]
  · intro h
    simp [PurePredicate.Or, h]

/-- Witness for C23 on the predicates of the test suite: false and failing
gives no failure; true or failing gives `(true, nil)`; true and failing, and
false or failing, give the failing operand's result; a failing first operand
is returned by both. -/
theorem C23_PurePredicate_And_Or_witness :
    (PurePredicate.And falsePurePredicate errPurePredicate "").2 = none
      ∧ PurePredicate.Or truePurePredicate errPurePredicate "" = (true, none)
      ∧ PurePredicate.And truePurePredicate errPurePredicate "" = (true, some ⟨""⟩)
      ∧ PurePredicate.Or falsePurePredicate errPurePredicate "" = (true, some ⟨""⟩)
      ∧ PurePredicate.And errPurePredicate falsePurePredicate "" = (true, some ⟨""⟩)
      ∧ PurePredicate.Or errPurePredicate falsePurePredicate "" = (true, some ⟨""⟩) :=
  ⟨(C23_PurePredicate_And_Or falsePurePredicate errPurePredicate "").1.2.2 rfl,
   (C23_PurePredicate_And_Or truePurePredicate errPurePredicate "").2.2.2 rfl,
   ((C23_PurePredicate_And_Or truePurePredicate errPurePredicate "").1.2.1 rfl).trans rfl,
   ((C23_PurePredicate_And_Or falsePurePredicate errPurePredicate "").2.2.1 rfl).trans rfl,
   (C23_PurePredicate_And_Or errPurePredicate falsePurePredicate "").1.1 _ _ rfl
      (Or.inr (by decide)),
   (C23_PurePredicate_And_Or errPurePredicate falsePurePredicate "").2.1 _ _ rfl
      (Or.inl rfl)⟩

/-! ## Failure propagation through Then -/

/-- C24: `Consumer.Then` and `Unary.Then` return a nil failure exactly when the
first operand returns a nil failure and the second, called on the first's
context (and the input, resp. the first's value), returns a nil failure; a
non-nil composite failure is the failure of the step that failed, unchanged. -/
theorem C24_Then_keeps_failures {T V : Type} (a b : Consumer V) (f g : Unary T)
    (ctx : Context) (w : V) (t : T) :
    (((Consumer.Then a b ctx w).2 = none ↔
          (a ctx w).2 = none ∧ (b (a ctx w).1 w).2 = none)
      ∧ (∀ e, (Consumer.Then a b ctx w).2 = some e →
          (a ctx w).2 = some e ∨ ((a ctx w).2 = none ∧ (b (a ctx w).1 w).2 = some e)))
    ∧ (((Unary.Then f g ctx t).2.2 = none ↔
          (f ctx t).2.2 = none ∧ (g (f ctx t).1 (f ctx t).2.1).2.2 = none)
      ∧ (∀ e, (Unary.Then f g ctx t).2.2 = some e →
          (f ctx t).2.2 = some e
            ∨ ((f ctx t).2.2 = none ∧ (g (f ctx t).1 (f ctx t).2.1).2.2 = some e))) := by
  constructor
  · rcases ha : a ctx w with ⟨ctx1, _ | e1⟩ <;> simp [Consumer.Then, ha]
  · rcases hf : f ctx t with ⟨ctx1, v1, _ | e1⟩ <;> simp [Unary.Then, hf]

/-- Witness for C24: a counting consumer followed by one that fails on a
positive counter fails with the second's failure; a failing unary followed by a
succeeding one fails with the first's failure. -/
theorem C24_Then_keeps_failures_witness :
    (Consumer.Then incConsumer failIfCountedConsumer Context.Background "").2 ≠ none
      ∧ ((incConsumer Context.Background "").2 = some ⟨"counted"⟩
          ∨ ((incConsumer Context.Background "").2 = none
              ∧ (failIfCountedConsumer (incConsumer Context.Background "").1 "").2
                = some ⟨"counted"⟩))
      ∧ ((failingUnary Context.Background 3).2.2 = some ⟨"unary"⟩
          ∨ ((failingUnary Context.Background 3).2.2 = none
              ∧ (succUnary (failingUnary Context.Background 3).1
                  (failingUnary Context.Background 3).2.1).2.2 = some ⟨"unary"⟩)) :=
  ⟨fun h =>
      absurd ((C24_Then_keeps_failures incConsumer failIfCountedConsumer failingUnary
        succUnary Context.Background "" 3).1.1.1 h).2 (by decide),
   (C24_Then_keeps_failures incConsumer failIfCountedConsumer failingUnary succUnary
      Context.Background "" 3).1.2 _ (by decide),
   (C24_Then_keeps_failures incConsumer failIfCountedConsumer failingUnary succUnary
      Context.Background "" 3).2.2 _ (by decide)⟩

/-! ## Two-input forms against one-input forms over a pair -/

/-- C25 (fails on the code for `Must`): on a caller context whose counter is 5,
the two-input counting consumer under `BiConsumer.Must` returns counter 6 built
on the caller's context, while the corresponding one-input consumer on pairs
under `Consumer.Must` returns counter 1 built on the background context. The
`Then` half of the claim holds for all operands. -/
theorem C25_Must_on_pair_differs :
    BiConsumer.Must incBiConsumer (Context.WithValue Context.Background "k" 5) "" 0
        = Outcome.returned
            (Context.WithValue (Context.WithValue Context.Background "k" 5) "k" 6)
      ∧ Consumer.Must (BiConsumer.onPair incBiConsumer)
          (Context.WithValue Context.Background "k" 5) ("", 0)
        = Outcome.returned (Context.WithValue Context.Background "k" 1)
      ∧ Consumer.Must (BiConsumer.onPair incBiConsumer)
          (Context.WithValue Context.Background "k" 5) ("", 0)
        ≠ BiConsumer.Must incBiConsumer (Context.WithValue Context.Background "k" 5) "" 0
      ∧ (∀ (T U : Type) (c d : BiConsumer T U) (ctx : Context) (t : T) (u : U),
          Consumer.Then (BiConsumer.onPair c) (BiConsumer.onPair d) ctx (t, u)
            = BiConsumer.Then c d ctx t u) := by
  refine ⟨by decide, by decide, by decide, ?_⟩
  intro T U c d ctx t u
  rfl

/-- C26: `BiPredicate.And`, `Or` and `Not` agree, as full result triples, with
`Predicate.And`, `Or` and `Not` on the corresponding one-input predicates over a
pair. -/
theorem C26_BiPredicate_matches_pair_Predicate {T U : Type} (p q : BiPredicate T U)
    (ctx : Context) (t : T) (u : U) :
    Predicate.And (BiPredicate.onPair p) (BiPredicate.onPair q) ctx (t, u)
        = BiPredicate.And p q ctx t u
      ∧ Predicate.Or (BiPredicate.onPair p) (BiPredicate.onPair q) ctx (t, u)
        = BiPredicate.Or p q ctx t u
      ∧ Predicate.Not (BiPredicate.onPair p) ctx (t, u) = BiPredicate.Not p ctx t u := by
  refine ⟨?_, ?_, ?_⟩
  · simp [Predicate.And, BiPredicate.And, BiPredicate.onPair]
  · simp [Predicate.Or, BiPredicate.Or, BiPredicate.onPair]
  · simp [Predicate.Not, BiPredicate.Not, BiPredicate.onPair]

/-- Witness for C26 on a comparison and a distinctness predicate at `(1, 2)` and
at `(2, 2)`, where the second operand fails. -/
theorem C26_BiPredicate_matches_pair_Predicate_witness :
    BiPredicate.And lessBiPredicate distinctBiPredicate Context.Background 1 2
        = (Context.WithValue (Context.WithValue Context.Background "k" 1) "k" 2, true, none)
      ∧ Predicate.And (BiPredicate.onPair lessBiPredicate)
          (BiPredicate.onPair distinctBiPredicate) Context.Background (1, 2)
        = (Context.WithValue (Context.WithValue Context.Background "k" 1) "k" 2, true, none)
      ∧ Predicate.Or (BiPredicate.onPair lessBiPredicate)
          (BiPredicate.onPair distinctBiPredicate) Context.Background (2, 2)
        = (Context.WithValue (Context.WithValue Context.Background "k" 1) "k" 2,
            false, some ⟨"equal"⟩)
      ∧ Predicate.Not (BiPredicate.onPair lessBiPredicate) Context.Background (2, 2)
        = (Context.WithValue Context.Background "k" 1, true, none) :=
  ⟨by decide,
   (C26_BiPredicate_matches_pair_Predicate lessBiPredicate distinctBiPredicate
      Context.Background 1 2).1.trans (by decide),
   (C26_BiPredicate_matches_pair_Predicate lessBiPredicate distinctBiPredicate
      Context.Background 2 2).2.1.trans (by decide),
   (C26_BiPredicate_matches_pair_Predicate lessBiPredicate distinctBiPredicate
      Context.Background 2 2).2.2.trans (by decide)⟩

/-! ## Context framing -/

/-- `Consumer.Then` of context-preserving consumers preserves the context. -/
theorem frame_Consumer_Then {T : Type} (a b : Consumer T)
    (ha : ∀ ctx t, (a ctx t).1 = ctx) (hb : ∀ ctx t, (b ctx t).1 = ctx)
    (ctx : Context) (t : T) : (Consumer.Then a b ctx t).1 = ctx := by
  have h1 := ha ctx t
  rcases h : a ctx t with ⟨c1, _ | e⟩
  · rw [h] at h1
    simp only at h1
    subst h1
    simp [Consumer.Then, h, hb]
  · rw [h] at h1
    simp only at h1
    simp [Consumer.Then, h, h1]

/-- `Unary.Then` of context-preserving functions preserves the context. -/
theorem frame_Unary_Then {T : Type} (f g : Unary T)
    (hf : ∀ ctx t, (f ctx t).1 = ctx) (hg : ∀ ctx t, (g ctx t).1 = ctx)
    (ctx : Context) (t : T) : (Unary.Then f g ctx t).1 = ctx := by
  have h1 := hf ctx t
  rcases h : f ctx t with ⟨c1, v1, _ | e⟩
  · rw [h] at h1
    simp only at h1
    subst h1
    simp [Unary.Then, h, hg]
  · rw [h] at h1
    simp only at h1
    simp [Unary.Then, h, h1]

/-- `Predicate.And`, `Or` and `Not` of context-preserving predicates preserve
the context. -/
theorem frame_Predicate_logic {T : Type} (p q : Predicate T)
    (hp : ∀ ctx t, (p ctx t).1 = ctx) (hq : ∀ ctx t, (q ctx t).1 = ctx)
    (ctx : Context) (t : T) :
    (Predicate.And p q ctx t).1 = ctx ∧ (Predicate.Or p q ctx t).1 = ctx
      ∧ (Predicate.Not p ctx t).1 = ctx := by
  have h1 := hp ctx t
  rcases h : p ctx t with ⟨c1, v1, err1⟩
  rw [h] at h1
  simp only at h1
  subst h1
  refine ⟨?_, ?_, ?_⟩
  · simp only [Predicate.And, h]
    split
    · rfl
    · exact hq _ t
  · simp only [Predicate.Or, h]
    split
    · rfl
    · exact hq _ t
  · simp [Predicate.Not, h]

/-- `MustConsumer.Then` of context-preserving consumers returns the caller's
context whenever it returns, and it returns when neither operand panics. -/
theorem frame_MustConsumer_Then {T : Type} (a b : MustConsumer T)
    (ha : ∀ ctx t ctx1, a ctx t = Outcome.returned ctx1 → ctx1 = ctx)
    (hb : ∀ ctx t ctx1, b ctx t = Outcome.returned ctx1 → ctx1 = ctx)
    (ctx : Context) (t : T) :
    (∀ ctx1, MustConsumer.Then a b ctx t = Outcome.returned ctx1 → ctx1 = ctx)
      ∧ ((a ctx t).aborts = false → (b ctx t).aborts = false →
          MustConsumer.Then a b ctx t = Outcome.returned ctx) := by
  rcases h : a ctx t with c1 | e
  · have h1 := ha ctx t c1 h
    subst h1
    refine ⟨?_, ?_⟩
    · intro ctx1 hr
      simp only [MustConsumer.Then, h] at hr
      exact hb _ t ctx1 hr
    · intro _ hbn
      simp only [MustConsumer.Then, h]
      rcases h2 : b c1 t with c2 | e2
      · rw [hb _ t c2 h2]
      · rw [h2] at hbn
        simp [Outcome.aborts] at hbn
  · simp [MustConsumer.Then, h, Outcome.aborts]

/-- `MustUnary.Then` of context-preserving functions returns the caller's
context whenever it returns, and it returns when neither operand panics. -/
theorem frame_MustUnary_Then {T : Type} (f g : MustUnary T)
    (hf : ∀ ctx t ctx1 v, f ctx t = Outcome.returned (ctx1, v) → ctx1 = ctx)
    (hg : ∀ ctx t ctx1 v, g ctx t = Outcome.returned (ctx1, v) → ctx1 = ctx)
    (ctx : Context) (t : T) :
    (∀ ctx1 v, MustUnary.Then f g ctx t = Outcome.returned (ctx1, v) → ctx1 = ctx)
      ∧ ((f ctx t).aborts = false → (∀ x, (g ctx x).aborts = false) →
          ∃ v, MustUnary.Then f g ctx t = Outcome.returned (ctx, v)) := by
  rcases h : f ctx t with ⟨c1, v1⟩ | e
  · have h1 := hf ctx t c1 v1 h
    subst h1
    refine ⟨?_, ?_⟩
    · intro ctx1 v hr
      simp only [MustUnary.Then, h] at hr
      exact hg _ v1 ctx1 v hr
    · intro _ hgn
      simp only [MustUnary.Then, h]
      rcases h2 : g c1 v1 with ⟨c2, v2⟩ | e2
      · rw [hg _ v1 c2 v2 h2]
        exact ⟨v2, rfl⟩
      · have := hgn v1
        rw [h2] at this
        simp [Outcome.aborts] at this
  · simp [MustUnary.Then, h, Outcome.aborts]

/-- `MustPredicate.And`, `Or` and `Not` of context-preserving predicates return
the caller's context whenever they return, and they return when neither
operand panics. -/
theorem frame_MustPredicate_logic {T : Type} (p q : MustPredicate T)
    (hp : ∀ ctx t ctx1 v, p ctx t = Outcome.returned (ctx1, v) → ctx1 = ctx)
    (hq : ∀ ctx t ctx1 v, q ctx t = Outcome.returned (ctx1, v) → ctx1 = ctx)
    (ctx : Context) (t : T) :
    ((∀ ctx1 v, MustPredicate.And p q ctx t = Outcome.returned (ctx1, v) → ctx1 = ctx)
      ∧ ((p ctx t).aborts = false → (q ctx t).aborts = false →
          ∃ v, MustPredicate.And p q ctx t = Outcome.returned (ctx, v)))
    ∧ ((∀ ctx1 v, MustPredicate.Or p q ctx t = Outcome.returned (ctx1, v) → ctx1 = ctx)
      ∧ ((p ctx t).aborts = false → (q ctx t).aborts = false →
          ∃ v, MustPredicate.Or p q ctx t = Outcome.returned (ctx, v)))
    ∧ ((∀ ctx1 v, MustPredicate.Not p ctx t = Outcome.returned (ctx1, v) → ctx1 = ctx)
      ∧ ((p ctx t).aborts = false →
          ∃ v, MustPredicate.Not p ctx t = Outcome.returned (ctx, v))) := by
  rcases h : p ctx t with ⟨c1, v1⟩ | e
  · have h1 := hp ctx t c1 v1 h
    subst h1
    have key : (q c1 t).aborts = false → ∃ v, q c1 t = Outcome.returned (c1, v) := by
      intro hqn
      rcases h2 : q c1 t with ⟨c2, v2⟩ | e2
      · rw [hq _ t c2 v2 h2]
        exact ⟨v2, rfl⟩
      · rw [h2] at hqn
        simp [Outcome.aborts] at hqn
    refine ⟨⟨?_, ?_⟩, ⟨?_, ?_⟩, ⟨?_, ?_⟩⟩
    · intro ctx1 v hr
      cases v1
      · simp [MustPredicate.And, h] at hr
        exact hr.1.symm
      · simp only [MustPredicate.And, h] at hr
        exact hq _ t ctx1 v (by simpa using hr)
    · intro _ hqn
      cases v1
      · exact ⟨false, by simp [MustPredicate.And, h]⟩
      · obtain ⟨v, hv⟩ := key hqn
        exact ⟨v, by simp [MustPredicate.And, h, hv]⟩
    · intro ctx1 v hr
      cases v1
      · simp only [MustPredicate.Or, h] at hr
        exact hq _ t ctx1 v (by simpa using hr)
      · simp [MustPredicate.Or, h] at hr
        exact hr.1.symm
    · intro _ hqn
      cases v1
      · obtain ⟨v, hv⟩ := key hqn
        exact ⟨v, by simp [MustPredicate.Or, h, hv]⟩
      · exact ⟨true, by simp [MustPredicate.Or, h]⟩
    · intro ctx1 v hr
      simp [MustPredicate.Not, h] at hr
      exact hr.1.symm
    · intro _
      exact ⟨!v1, by simp [MustPredicate.Not, h]⟩
  · simp [MustPredicate.And, MustPredicate.Or, MustPredicate.Not, h, Outcome.aborts]

/-- The sample consumer `keepConsumer` returns its context unchanged. -/
theorem keepConsumer_frame (ctx : Context) (t : Int) : (keepConsumer ctx t).1 = ctx := by
  unfold keepConsumer
  split <;> rfl

/-- The sample predicate `keepEvenPredicate` returns its context unchanged. -/
theorem keepEvenPredicate_frame (ctx : Context) (t : Int) :
    (keepEvenPredicate ctx t).1 = ctx := by
  unfold keepEvenPredicate
  split <;> rfl

/-- The sample function `keepHalfUnary` returns its context unchanged. -/
theorem keepHalfUnary_frame (ctx : Context) (t : Int) : (keepHalfUnary ctx t).1 = ctx := by
  unfold keepHalfUnary
  split <;> rfl

/-- The sample consumer `keepMustConsumer` returns its context unchanged. -/
theorem keepMustConsumer_frame (ctx : Context) (t : Int) (ctx1 : Context)
    (h : keepMustConsumer ctx t = Outcome.returned ctx1) : ctx1 = ctx := by
  unfold keepMustConsumer at h
  split at h
  · cases h
  · cases h
    rfl

/-- The sample predicate `keepEvenMustPredicate` returns its context unchanged. -/
theorem keepEvenMustPredicate_frame (ctx : Context) (t : Int) (ctx1 : Context) (v : Bool)
    (h : keepEvenMustPredicate ctx t = Outcome.returned (ctx1, v)) : ctx1 = ctx := by
  unfold keepEvenMustPredicate at h
  split at h
  · cases h
  · cases h
    rfl

/-- The sample function `keepHalfMustUnary` returns its context unchanged. -/
theorem keepHalfMustUnary_frame (ctx : Context) (t : Int) (ctx1 : Context) (v : Int)
    (h : keepHalfMustUnary ctx t = Outcome.returned (ctx1, v)) : ctx1 = ctx := by
  unfold keepHalfMustUnary at h
  split at h
  · cases h
    rfl
  · cases h

/-- C27: when every operand returns its input context unchanged (on success and
on failure; for the infallible shapes, whenever it returns), the composites
`Then`, `And`, `Or` and `Not` return exactly the caller's context: the fallible
composites always, the infallible ones whenever they return, which they do when
no operand panics. -/
theorem C27_composition_only_threads_context {T : Type}
    (a b : Consumer T) (p q : Predicate T) (f g : Unary T)
    (ma mb : MustConsumer T) (mp mq : MustPredicate T) (mf mg : MustUnary T)
    (ha : ∀ ctx t, (a ctx t).1 = ctx) (hb : ∀ ctx t, (b ctx t).1 = ctx)
    (hp : ∀ ctx t, (p ctx t).1 = ctx) (hq : ∀ ctx t, (q ctx t).1 = ctx)
    (hf : ∀ ctx t, (f ctx t).1 = ctx) (hg : ∀ ctx t, (g ctx t).1 = ctx)
    (hma : ∀ ctx t ctx1, ma ctx t = Outcome.returned ctx1 → ctx1 = ctx)
    (hmb : ∀ ctx t ctx1, mb ctx t = Outcome.returned ctx1 → ctx1 = ctx)
    (hmp : ∀ ctx t ctx1 v, mp ctx t = Outcome.returned (ctx1, v) → ctx1 = ctx)
    (hmq : ∀ ctx t ctx1 v, mq ctx t = Outcome.returned (ctx1, v) → ctx1 = ctx)
    (hmf : ∀ ctx t ctx1 v, mf ctx t = Outcome.returned (ctx1, v) → ctx1 = ctx)
    (hmg : ∀ ctx t ctx1 v, mg ctx t = Outcome.returned (ctx1, v) → ctx1 = ctx)
    (ctx : Context) (t : T) :
    ((Consumer.Then a b ctx t).1 = ctx
      ∧ (Predicate.And p q ctx t).1 = ctx
      ∧ (Predicate.Or p q ctx t).1 = ctx
      ∧ (Predicate.Not p ctx t).1 = ctx
      ∧ (Unary.Then f g ctx t).1 = ctx)
    ∧ ((∀ ctx1, MustConsumer.Then ma mb ctx t = Outcome.returned ctx1 → ctx1 = ctx)
      ∧ ((ma ctx t).aborts = false → (mb ctx t).aborts = false →
          MustConsumer.Then ma mb ctx t = Outcome.returned ctx))
    ∧ ((∀ ctx1 v, MustPredicate.And mp mq ctx t = Outcome.returned (ctx1, v) → ctx1 = ctx)
      ∧ ((mp ctx t).aborts = false → (mq ctx t).aborts = false →
          ∃ v, MustPredicate.And mp mq ctx t = Outcome.returned (ctx, v)))
    ∧ ((∀ ctx1 v, MustPredicate.Or mp mq ctx t = Outcome.returned (ctx1, v) → ctx1 = ctx)
      ∧ ((mp ctx t).aborts = false → (mq ctx t).aborts = false →
          ∃ v, MustPredicate.Or mp mq ctx t = Outcome.returned (ctx, v)))
    ∧ ((∀ ctx1 v, MustPredicate.Not mp ctx t = Outcome.returned (ctx1, v) → ctx1 = ctx)
      ∧ ((mp ctx t).aborts = false →
          ∃ v, MustPredicate.Not mp ctx t = Outcome.returned (ctx, v)))
    ∧ ((∀ ctx1 v, MustUnary.Then mf mg ctx t = Outcome.returned (ctx1, v) → ctx1 = ctx)
      ∧ ((mf ctx t).aborts = false → (∀ x, (mg ctx x).aborts = false) →
          ∃ v, MustUnary.Then mf mg ctx t = Outcome.returned (ctx, v))) := by
  have hP := frame_Predicate_logic p q hp hq ctx t
  have hMP := frame_MustPredicate_logic mp mq hmp hmq ctx t
  exact ⟨⟨frame_Consumer_Then a b ha hb ctx t, hP.1, hP.2.1, hP.2.2,
      frame_Unary_Then f g hf hg ctx t⟩,
    frame_MustConsumer_Then ma mb hma hmb ctx t, hMP.1, hMP.2.1, hMP.2.2,
    frame_MustUnary_Then mf mg hmf hmg ctx t⟩

/-- Witness for C27 on context-preserving samples, called on a context that
holds 7 under `"k"` with input 4: every composite returns that context. -/
theorem C27_composition_only_threads_context_witness :
    (Consumer.Then keepConsumer keepConsumer (Context.WithValue Context.Background "k" 7) 4).1
        = Context.WithValue Context.Background "k" 7
      ∧ (Predicate.And keepEvenPredicate keepEvenPredicate
          (Context.WithValue Context.Background "k" 7) 4).1
        = Context.WithValue Context.Background "k" 7
      ∧ (Unary.Then keepHalfUnary keepHalfUnary
          (Context.WithValue Context.Background "k" 7) 4).1
        = Context.WithValue Context.Background "k" 7
      ∧ MustConsumer.Then keepMustConsumer keepMustConsumer
          (Context.WithValue Context.Background "k" 7) 4
        = Outcome.returned (Context.WithValue Context.Background "k" 7)
      ∧ (∃ v, MustPredicate.Or keepEvenMustPredicate keepEvenMustPredicate
          (Context.WithValue Context.Background "k" 7) 4
        = Outcome.returned (Context.WithValue Context.Background "k" 7, v)) := by
  have h := C27_composition_only_threads_context keepConsumer keepConsumer
    keepEvenPredicate keepEvenPredicate keepHalfUnary keepHalfUnary
    keepMustConsumer keepMustConsumer keepEvenMustPredicate keepEvenMustPredicate
    keepHalfMustUnary keepHalfMustUnary
    keepConsumer_frame keepConsumer_frame keepEvenPredicate_frame keepEvenPredicate_frame
    keepHalfUnary_frame keepHalfUnary_frame keepMustConsumer_frame keepMustConsumer_frame
    keepEvenMustPredicate_frame keepEvenMustPredicate_frame
    keepHalfMustUnary_frame keepHalfMustUnary_frame
    (Context.WithValue Context.Background "k" 7) 4
  exact ⟨h.1.1, h.1.2.1, h.1.2.2.2.2, h.2.1.2 (by decide) (by decide),
    h.2.2.2.1.2 (by decide) (by decide)⟩

/-! ## Must against the caller's context, and Must over Then -/

/-- C28: the outcome of `Consumer.Must` is the same for every caller context,
namely that of the consumer called on the background context: its context when
it succeeds there, a panic with its failure when it fails there. -/
theorem C28_Consumer_Must_ignores_caller_context {T : Type} (c : Consumer T) (t : T)
    (ctx1 ctx2 : Context) :
    Consumer.Must c ctx1 t = Consumer.Must c ctx2 t
      ∧ (∀ ctx0, c Context.Background t = (ctx0, none) →
          Consumer.Must c ctx1 t = Outcome.returned ctx0)
      ∧ (∀ ctx0 err, c Context.Background t = (ctx0, some err) →
          Consumer.Must c ctx1 t = Outcome.panicked err) := by
  refine ⟨rfl, ?_, ?_⟩
  · intro ctx0 h
    simp [Consumer.Must, h]
  · intro ctx0 err h
    simp [Consumer.Must, h]

/-- Witness for C28: the counting consumer under `Must` returns counter 1 on a
caller context whose counter is 5, as on the background context; the failing
counting consumer panics on both. -/
theorem C28_Consumer_Must_ignores_caller_context_witness :
    Consumer.Must incConsumer (Context.WithValue Context.Background "k" 5) ""
        = Consumer.Must incConsumer Context.Background ""
      ∧ Consumer.Must incConsumer (Context.WithValue Context.Background "k" 5) ""
        = Outcome.returned (Context.WithValue Context.Background "k" 1)
      ∧ Consumer.Must incFailConsumer (Context.WithValue Context.Background "k" 5) ""
        = Outcome.panicked ⟨""⟩ :=
  ⟨(C28_Consumer_Must_ignores_caller_context incConsumer ""
      (Context.WithValue Context.Background "k" 5) Context.Background).1,
   (C28_Consumer_Must_ignores_caller_context incConsumer ""
      (Context.WithValue Context.Background "k" 5) Context.Background).2.1 _ rfl,
   (C28_Consumer_Must_ignores_caller_context incFailConsumer ""
      (Context.WithValue Context.Background "k" 5) Context.Background).2.2 _ _ rfl⟩

/-- C29 (fails on the code): with a counting consumer followed by one that
fails on a positive counter, `Must` of the composite panics with the second's
failure, while the composite of the two `Must` wrappers returns the background
context, because `Consumer.Must` calls the second consumer on the background
context instead of the context the first returned. -/
theorem C29_Consumer_Must_Then_differs :
    Consumer.Must (Consumer.Then incConsumer failIfCountedConsumer) Context.Background ""
        = Outcome.panicked ⟨"counted"⟩
      ∧ MustConsumer.Then (Consumer.Must incConsumer) (Consumer.Must failIfCountedConsumer)
          Context.Background ""
        = Outcome.returned Context.Background
      ∧ ¬ (∀ (c d : Consumer String) (ctx : Context) (t : String),
            Consumer.Must (Consumer.Then c d) ctx t
              = MustConsumer.Then (Consumer.Must c) (Consumer.Must d) ctx t) := by
  refine ⟨by decide, by decide, fun h => ?_⟩
  have h1 := h incConsumer failIfCountedConsumer Context.Background ""
  revert h1
  decide

/-- C30: for `BiConsumer` and `Unary`, `Must` of a `Then` composite and the `Then`
composite of the `Must` wrappers have the same outcome on every context and
input; when the first operand fails both panic with its failure, whatever the
second operand is. -/
theorem C30_BiConsumer_Unary_Must_Then {T U V : Type} (c d : BiConsumer T U) (f g : Unary V)
    (ctx : Context) (t : T) (u : U) (w : V) :
    (BiConsumer.Must (BiConsumer.Then c d) ctx t u
        = MustBiConsumer.Then (BiConsumer.Must c) (BiConsumer.Must d) ctx t u
      ∧ (∀ ctx1 err, c ctx t u = (ctx1, some err) →
          BiConsumer.Must (BiConsumer.Then c d) ctx t u = Outcome.panicked err
            ∧ MustBiConsumer.Then (BiConsumer.Must c) (BiConsumer.Must d) ctx t u
              = Outcome.panicked err))
    ∧ (Unary.Must (Unary.Then f g) ctx w
        = MustUnary.Then (Unary.Must f) (Unary.Must g) ctx w
      ∧ (∀ ctx1 v1 err, f ctx w = (ctx1, v1, some err) →
          Unary.Must (Unary.Then f g) ctx w = Outcome.panicked err
            ∧ MustUnary.Then (Unary.Must f) (Unary.Must g) ctx w = Outcome.panicked err)) := by
  constructor
  · rcases hc : c ctx t u with ⟨ctx1, _ | e⟩
    · refine ⟨?_, ?_⟩
      · simp only [BiConsumer.Must, BiConsumer.Then, MustBiConsumer.Then, hc]
      · intro ctx2 err h
        cases h
    · refine ⟨?_, ?_⟩
      · simp only [BiConsumer.Must, BiConsumer.Then, MustBiConsumer.Then, hc]
      · intro ctx2 err h
        cases h
        simp [BiConsumer.Must, BiConsumer.Then, MustBiConsumer.Then, hc]
  · rcases hf : f ctx w with ⟨ctx1, v1, _ | e⟩
    · refine ⟨?_, ?_⟩
      · simp only [Unary.Must, Unary.Then, MustUnary.Then, hf]
      · intro ctx2 v2 err h
        cases h
    · refine ⟨?_, ?_⟩
      · simp only [Unary.Must, Unary.Then, MustUnary.Then, hf]
      · intro ctx2 v2 err h
        cases h
        simp [Unary.Must, Unary.Then, MustUnary.Then, hf]

/-- Witness for C30: a counting two-input consumer followed by one that fails on
a positive counter panics with the second's failure both ways, on a caller
context whose counter is 5; a failing first unary panics with its own failure. -/
theorem C30_BiConsumer_Unary_Must_Then_witness :
    BiConsumer.Must (BiConsumer.Then incBiConsumer failIfCountedBiConsumer)
        (Context.WithValue Context.Background "k" 5) "" 0
        = Outcome.panicked ⟨"counted"⟩
      ∧ MustBiConsumer.Then (BiConsumer.Must incBiConsumer)
          (BiConsumer.Must failIfCountedBiConsumer)
          (Context.WithValue Context.Background "k" 5) "" 0
        = Outcome.panicked ⟨"counted"⟩
      ∧ MustUnary.Then (Unary.Must failingUnary) (Unary.Must succUnary) Context.Background 3
        = Outcome.panicked ⟨"unary"⟩
      ∧ MustUnary.Then (Unary.Must succUnary) (Unary.Must doubleUnary) Context.Background 3
        = Outcome.returned
            (Context.WithValue (Context.WithValue Context.Background "k" 1) "k" 2, 8) :=
  ⟨by decide,
   (C30_BiConsumer_Unary_Must_Then incBiConsumer failIfCountedBiConsumer failingUnary
      succUnary (Context.WithValue Context.Background "k" 5) "" 0 3).1.1.symm.trans (by decide),
   ((C30_BiConsumer_Unary_Must_Then incBiConsumer failIfCountedBiConsumer failingUnary
      succUnary Context.Background "" 0 3).2.2 _ _ _ rfl).2,
   (C30_BiConsumer_Unary_Must_Then incBiConsumer failIfCountedBiConsumer succUnary
      doubleUnary Context.Background "" 0 3).2.1.symm.trans (by decide)⟩

/-! ## Must against the predicate operators, and the two conversion paths -/

/-- C31: `Must` commutes with the predicate operators: `Must` of `And`, `Or` and
`Not` has the same outcome (returned context and boolean, or panic payload) as
`And`, `Or` and `Not` of the `Must` wrappers, on every context and input. -/
theorem C31_Predicate_Must_homomorphism {T : Type} (p q : Predicate T) (ctx : Context)
    (t : T) :
    Predicate.Must (Predicate.And p q) ctx t
        = MustPredicate.And (Predicate.Must p) (Predicate.Must q) ctx t
      ∧ Predicate.Must (Predicate.Or p q) ctx t
        = MustPredicate.Or (Predicate.Must p) (Predicate.Must q) ctx t
      ∧ Predicate.Must (Predicate.Not p) ctx t
        = MustPredicate.Not (Predicate.Must p) ctx t := by
  refine ⟨?_, ?_, ?_⟩
  · rcases hp : p ctx t with ⟨c1, _ | _, _ | e1⟩ <;>
      simp [Predicate.Must, Predicate.And, MustPredicate.And, hp]
  · rcases hp : p ctx t with ⟨c1, _ | _, _ | e1⟩ <;>
      simp [Predicate.Must, Predicate.Or, MustPredicate.Or, hp]
  · rcases hp : p ctx t with ⟨c1, v1, _ | e1⟩ <;>
      simp [Predicate.Must, Predicate.Not, MustPredicate.Not, hp]

/-- Witness for C31 on the counting predicates of the test suite, called on a
context whose counter is 5: true-and-failing panics, false-and-failing returns
false with counter 6, the negation of the failing predicate panics. -/
theorem C31_Predicate_Must_homomorphism_witness :
    MustPredicate.And (Predicate.Must truePredicate) (Predicate.Must errPredicate)
        (Context.WithValue Context.Background "k" 5) ""
        = Outcome.panicked ⟨""⟩
      ∧ MustPredicate.And (Predicate.Must falsePredicate) (Predicate.Must errPredicate)
        (Context.WithValue Context.Background "k" 5) ""
        = Outcome.returned
            (Context.WithValue (Context.WithValue Context.Background "k" 5) "k" 6, false)
      ∧ MustPredicate.Or (Predicate.Must falsePredicate) (Predicate.Must truePredicate)
        (Context.WithValue Context.Background "k" 5) ""
        = Outcome.returned
            (Context.WithValue
              (Context.WithValue (Context.WithValue Context.Background "k" 5) "k" 6) "k" 7,
              true)
      ∧ MustPredicate.Not (Predicate.Must errPredicate)
        (Context.WithValue Context.Background "k" 5) ""
        = Outcome.panicked ⟨""⟩ :=
  ⟨(C31_Predicate_Must_homomorphism truePredicate errPredicate
      (Context.WithValue Context.Background "k" 5) "").1.symm.trans (by decide),
   (C31_Predicate_Must_homomorphism falsePredicate errPredicate
      (Context.WithValue Context.Background "k" 5) "").1.symm.trans (by decide),
   (C31_Predicate_Must_homomorphism falsePredicate truePredicate
      (Context.WithValue Context.Background "k" 5) "").2.1.symm.trans (by decide),
   (C31_Predicate_Must_homomorphism errPredicate truePredicate
      (Context.WithValue Context.Background "k" 5) "").2.2.symm.trans (by decide)⟩

/-- C32: the two conversion paths agree: for `Func`, `Consumer`, `Predicate` and
`Supplier`, `Pure` of `Must` and `Must` of `Pure` have the same outcome (same
value, or panic with the same payload). -/
theorem C32_Must_Pure_paths_agree {T R V W S : Type} (f : Func T R) (c : Consumer V)
    (p : Predicate W) (s : Supplier S) (t : T) (v : V) (w : W) :
    MustFunc.Pure (Func.Must f) t = PureFunc.Must (Func.Pure f) t
      ∧ MustConsumer.Pure (Consumer.Must c) v = PureConsumer.Must (Consumer.Pure c) v
      ∧ MustPredicate.Pure (Predicate.Must p) w = PurePredicate.Must (Predicate.Pure p) w
      ∧ MustSupplier.Pure (Supplier.Must s) () = PureSupplier.Must (Supplier.Pure s) () := by
  refine ⟨?_, ?_, ?_, ?_⟩
  · rcases hf : f Context.Background t with ⟨c1, r, _ | e⟩ <;>
      simp [MustFunc.Pure, Func.Must, PureFunc.Must, Func.Pure, hf]
  · rcases hc : c Context.Background v with ⟨c1, _ | e⟩ <;>
      simp [MustConsumer.Pure, Consumer.Must, PureConsumer.Must, Consumer.Pure, hc]
  · rcases hp : p Context.Background w with ⟨c1, b, _ | e⟩ <;>
      simp [MustPredicate.Pure, Predicate.Must, PurePredicate.Must, Predicate.Pure, hp]
  · rcases hs : s Context.Background with ⟨c1, r, _ | e⟩ <;>
      simp [MustSupplier.Pure, Supplier.Must, PureSupplier.Must, Supplier.Pure, hs]

/-- Witness for C32: a succeeding function returns its value both ways, and a
failing consumer, predicate and supplier panic with their failure both ways. -/
theorem C32_Must_Pure_paths_agree_witness :
    PureFunc.Must (Func.Pure recordFunc) 2 = Outcome.returned 3
      ∧ PureConsumer.Must (Consumer.Pure incFailConsumer) "" = Outcome.panicked ⟨""⟩
      ∧ PurePredicate.Must (Predicate.Pure errPredicate) "" = Outcome.panicked ⟨""⟩
      ∧ PureSupplier.Must (Supplier.Pure failingSupplier) () = Outcome.panicked ⟨"error"⟩ :=
  ⟨(C32_Must_Pure_paths_agree recordFunc incFailConsumer errPredicate failingSupplier
      2 "" "").1.symm.trans (by decide),
   (C32_Must_Pure_paths_agree recordFunc incFailConsumer errPredicate failingSupplier
      2 "" "").2.1.symm.trans (by decide),
   (C32_Must_Pure_paths_agree recordFunc incFailConsumer errPredicate failingSupplier
      2 "" "").2.2.1.symm.trans (by decide),
   (C32_Must_Pure_paths_agree recordFunc incFailConsumer errPredicate failingSupplier
      2 "" "").2.2.2.symm.trans (by decide)⟩

/-- C33: `Pure` does not distribute over `Then`. When the first consumer
succeeds on the background context, `Pure` of the composite is the failure of
the second consumer on the context the first returned, while the composite of
the `Pure` wrappers is the failure of the second consumer on the background
context; a counting consumer followed by one that fails on a positive counter
gives a failure the first way and none the second way. -/
theorem C33_Pure_not_distributive_over_Then :
    (∀ (T : Type) (c d : Consumer T) (t : T), (c Context.Background t).2 = none →
        Consumer.Pure (Consumer.Then c d) t = (d (c Context.Background t).1 t).2
          ∧ PureConsumer.Then (Consumer.Pure c) (Consumer.Pure d) t
            = (d Context.Background t).2)
      ∧ Consumer.Pure (Consumer.Then incConsumer failIfCountedConsumer) "" = some ⟨"counted"⟩
      ∧ PureConsumer.Then (Consumer.Pure incConsumer) (Consumer.Pure failIfCountedConsumer) ""
        = none
      ∧ (∃ (c d : Consumer String) (t : String),
          Consumer.Pure (Consumer.Then c d) t
            ≠ PureConsumer.Then (Consumer.Pure c) (Consumer.Pure d) t) := by
  refine ⟨?_, by decide, by decide, ⟨incConsumer, failIfCountedConsumer, "", by decide⟩⟩
  intro T c d t h
  rcases hc : c Context.Background t with ⟨c1, e1⟩
  rw [hc] at h
  simp only at h
  subst h
  simp [Consumer.Pure, Consumer.Then, PureConsumer.Then, hc]

/-! ## Algebraic laws of the composition operators -/

/-- C34: `Then` is associative for `Consumer` and for `Unary`: both groupings
return the same context, (value) and failure on every context and input, on
every short-circuit path. -/
theorem C34_Then_associative {T V : Type} (a b c : Consumer V) (f g h : Unary T)
    (ctx : Context) (w : V) (t : T) :
    Consumer.Then (Consumer.Then a b) c ctx w = Consumer.Then a (Consumer.Then b c) ctx w
      ∧ Unary.Then (Unary.Then f g) h ctx t = Unary.Then f (Unary.Then g h) ctx t := by
  constructor
  · rcases ha : a ctx w with ⟨c1, _ | e1⟩
    · rcases hb : b c1 w with ⟨c2, _ | e2⟩ <;> simp [Consumer.Then, ha, hb]
    · simp [Consumer.Then, ha]
  · rcases hf : f ctx t with ⟨c1, v1, _ | e1⟩
    · rcases hg : g c1 v1 with ⟨c2, v2, _ | e2⟩ <;> simp [Unary.Then, hf, hg]
    · simp [Unary.Then, hf]

/-- Witness for C34: three counting consumers give counter 3 under both
groupings; successor, doubling, successor maps 3 to 9 under both; a failing
middle step stops both at counter 2. -/
theorem C34_Then_associative_witness :
    Consumer.Then incConsumer (Consumer.Then incConsumer incConsumer) Context.Background ""
        = (Context.WithValue
            (Context.WithValue (Context.WithValue Context.Background "k" 1) "k" 2) "k" 3,
            none)
      ∧ Unary.Then succUnary (Unary.Then doubleUnary succUnary) Context.Background 3
        = (Context.WithValue
            (Context.WithValue (Context.WithValue Context.Background "k" 1) "k" 2) "k" 3,
            9, none)
      ∧ Unary.Then succUnary (Unary.Then failingUnary succUnary) Context.Background 3
        = (Context.WithValue (Context.WithValue Context.Background "k" 1) "k" 2,
            -4, some ⟨"unary"⟩) :=
  ⟨(C34_Then_associative incConsumer incConsumer incConsumer succUnary doubleUnary
      succUnary Context.Background "" 3).1.symm.trans (by decide),
   (C34_Then_associative incConsumer incConsumer incConsumer succUnary doubleUnary
      succUnary Context.Background "" 3).2.symm.trans (by decide),
   (C34_Then_associative incConsumer incConsumer incConsumer succUnary failingUnary
      succUnary Context.Background "" 3).2.symm.trans (by decide)⟩

/-- C35: `And` and `Or` are associative on context-carrying fallible
predicates, as full (context, boolean, failure) triples. -/
theorem C35_Predicate_And_Or_associative {T : Type} (a b c : Predicate T) (ctx : Context)
    (t : T) :
    Predicate.And (Predicate.And a b) c ctx t = Predicate.And a (Predicate.And b c) ctx t
      ∧ Predicate.Or (Predicate.Or a b) c ctx t = Predicate.Or a (Predicate.Or b c) ctx t := by
  constructor
  · rcases ha : a ctx t with ⟨c1, _ | _, _ | e1⟩
    · simp [Predicate.And, ha]
    · simp [Predicate.And, ha]
    · rcases hb : b c1 t with ⟨c2, _ | _, _ | e2⟩ <;> simp [Predicate.And, ha, hb]
    · simp [Predicate.And, ha]
  · rcases ha : a ctx t with ⟨c1, _ | _, _ | e1⟩
    · rcases hb : b c1 t with ⟨c2, _ | _, _ | e2⟩ <;> simp [Predicate.Or, ha, hb]
    · simp [Predicate.Or, ha]
    · simp [Predicate.Or, ha]
    · simp [Predicate.Or, ha]

/-- Witness for C35: true, true, failing stops with the third's failure at
counter 3 under both groupings of `And`; false, false, true gives true at
counter 3 under both groupings of `Or`. -/
theorem C35_Predicate_And_Or_associative_witness :
    Predicate.And truePredicate (Predicate.And truePredicate errPredicate)
        Context.Background ""
        = (Context.WithValue
            (Context.WithValue (Context.WithValue Context.Background "k" 1) "k" 2) "k" 3,
            true, some ⟨""⟩)
      ∧ Predicate.Or falsePredicate (Predicate.Or falsePredicate truePredicate)
        Context.Background ""
        = (Context.WithValue
            (Context.WithValue (Context.WithValue Context.Background "k" 1) "k" 2) "k" 3,
            true, none) :=
  ⟨(C35_Predicate_And_Or_associative truePredicate truePredicate errPredicate
      Context.Background "").1.symm.trans (by decide),
   (C35_Predicate_And_Or_associative falsePredicate falsePredicate truePredicate
      Context.Background "").2.symm.trans (by decide)⟩

/-- C36: De Morgan's laws hold for context-carrying fallible predicates as full
(context, boolean, failure) triples: the negation of `And` is the `Or` of the
negations, and the negation of `Or` is the `And` of the negations. -/
theorem C36_Predicate_De_Morgan {T : Type} (p q : Predicate T) (ctx : Context) (t : T) :
    Predicate.Not (Predicate.And p q) ctx t
        = Predicate.Or (Predicate.Not p) (Predicate.Not q) ctx t
      ∧ Predicate.Not (Predicate.Or p q) ctx t
        = Predicate.And (Predicate.Not p) (Predicate.Not q) ctx t := by
  constructor
  · rcases hp : p ctx t with ⟨c1, _ | _, _ | e1⟩ <;>
      simp [Predicate.Not, Predicate.And, Predicate.Or, hp]
  · rcases hp : p ctx t with ⟨c1, _ | _, _ | e1⟩ <;>
      simp [Predicate.Not, Predicate.And, Predicate.Or, hp]

/-- Witness for C36: with a true first and a failing second predicate the
negated conjunction carries the second's failure at counter 2; with a failing
first predicate the negated disjunction carries the first's failure at
counter 1, with the boolean negated. -/
theorem C36_Predicate_De_Morgan_witness :
    Predicate.Or (Predicate.Not truePredicate) (Predicate.Not errPredicate)
        Context.Background ""
        = (Context.WithValue (Context.WithValue Context.Background "k" 1) "k" 2,
            false, some ⟨""⟩)
      ∧ Predicate.And (Predicate.Not errPredicate) (Predicate.Not truePredicate)
        Context.Background ""
        = (Context.WithValue Context.Background "k" 1, false, some ⟨""⟩) :=
  ⟨(C36_Predicate_De_Morgan truePredicate errPredicate Context.Background "").1.symm.trans
      (by decide),
   (C36_Predicate_De_Morgan errPredicate truePredicate Context.Background "").2.symm.trans
      (by decide)⟩

/-- C37: `Not` is an involution on `Predicate` (as a full triple, also when the
predicate fails), on `MustPredicate`, on `PurePredicate` and on
`PureMustPredicate`. -/
theorem C37_Not_involution {T : Type} (p : Predicate T) (mp : MustPredicate T)
    (pp : PurePredicate T) (pmp : PureMustPredicate T) (ctx : Context) (t : T) :
    Predicate.Not (Predicate.Not p) ctx t = p ctx t
      ∧ MustPredicate.Not (MustPredicate.Not mp) ctx t = mp ctx t
      ∧ PurePredicate.Not (PurePredicate.Not pp) t = pp t
      ∧ PureMustPredicate.Not (PureMustPredicate.Not pmp) t = pmp t := by
  refine ⟨?_, ?_, ?_, ?_⟩
  · rcases hp : p ctx t with ⟨c1, v1, e1⟩
    simp [Predicate.Not, hp]
  · rcases hp : mp ctx t with ⟨c1, v1⟩ | e
    · simp [MustPredicate.Not, hp]
    · simp [MustPredicate.Not, hp]
  · rcases hp : pp t with ⟨v1, e1⟩
    simp [PurePredicate.Not, hp]
  · rcases hp : pmp t with v1 | e
    · simp [PureMustPredicate.Not, hp]
    · simp [PureMustPredicate.Not, hp]

/-- Witness for C37: a failing predicate with boolean false, a panicking
infallible predicate, a failing pure predicate and a pure infallible
predicate. -/
theorem C37_Not_involution_witness :
    Predicate.Not (Predicate.Not failingPredicate) Context.Background 3
        = (Context.WithValue Context.Background "k" 1, true, some ⟨"error"⟩)
      ∧ MustPredicate.Not (MustPredicate.Not evenMustPredicate) Context.Background (-1)
        = Outcome.panicked ⟨"negative"⟩
      ∧ PurePredicate.Not (PurePredicate.Not evenPurePredicate) (-1)
        = (false, some ⟨"negative"⟩)
      ∧ PureMustPredicate.Not (PureMustPredicate.Not positivePureMustPredicate) 3
        = Outcome.returned true :=
  ⟨(C37_Not_involution failingPredicate evenMustPredicate evenPurePredicate
      positivePureMustPredicate Context.Background 3).1.trans (by decide),
   (C37_Not_involution failingPredicate evenMustPredicate evenPurePredicate
      positivePureMustPredicate Context.Background (-1)).2.1.trans (by decide),
   (C37_Not_involution failingPredicate evenMustPredicate evenPurePredicate
      positivePureMustPredicate Context.Background (-1)).2.2.1.trans (by decide),
   (C37_Not_involution failingPredicate evenMustPredicate evenPurePredicate
      positivePureMustPredicate Context.Background 3).2.2.2.trans (by decide)⟩

/-- C38: identity elements: the consumer returning `(ctx, nil)` is a left and
right identity of `Consumer.Then`; the predicate returning `(ctx, true, nil)` is
a left and right identity of `Predicate.And`; the predicate returning
`(ctx, false, nil)` is a left and right identity of `Predicate.Or`; all pointwise
and as full result tuples. -/
theorem C38_identity_elements {T V : Type} (a : Consumer V) (p : Predicate T)
    (ctx : Context) (w : V) (t : T) :
    (Consumer.Then idConsumer a ctx w = a ctx w ∧ Consumer.Then a idConsumer ctx w = a ctx w)
      ∧ (Predicate.And constTruePredicate p ctx t = p ctx t
          ∧ Predicate.And p constTruePredicate ctx t = p ctx t)
      ∧ (Predicate.Or constFalsePredicate p ctx t = p ctx t
          ∧ Predicate.Or p constFalsePredicate ctx t = p ctx t) := by
  refine ⟨⟨?_, ?_⟩, ⟨?_, ?_⟩, ⟨?_, ?_⟩⟩
  · simp [Consumer.Then, idConsumer]
  · rcases ha : a ctx w with ⟨c1, _ | e1⟩ <;> simp [Consumer.Then, idConsumer, ha]
  · simp [Predicate.And, constTruePredicate]
  · rcases hp : p ctx t with ⟨c1, _ | _, _ | e1⟩ <;>
      simp [Predicate.And, constTruePredicate, hp]
  · simp [Predicate.Or, constFalsePredicate]
  · rcases hp : p ctx t with ⟨c1, _ | _, _ | e1⟩ <;>
      simp [Predicate.Or, constFalsePredicate, hp]

/-- Witness for C38: the failing counting consumer and the failing counting
predicate keep their results when composed with the identity elements on
either side. -/
theorem C38_identity_elements_witness :
    Consumer.Then idConsumer incFailConsumer Context.Background ""
        = (Context.WithValue Context.Background "k" 1, some ⟨""⟩)
      ∧ Consumer.Then incConsumer idConsumer Context.Background ""
        = (Context.WithValue Context.Background "k" 1, none)
      ∧ Predicate.And truePredicate constTruePredicate Context.Background ""
        = (Context.WithValue Context.Background "k" 1, true, none)
      ∧ Predicate.Or constFalsePredicate errFalsePredicate Context.Background ""
        = (Context.WithValue Context.Background "k" 1, false, some ⟨"failed"⟩) :=
  ⟨(C38_identity_elements incFailConsumer truePredicate Context.Background "" "").1.1.trans
      (by decide),
   (C38_identity_elements incConsumer truePredicate Context.Background "" "").1.2.trans
      (by decide),
   (C38_identity_elements incConsumer truePredicate Context.Background "" "").2.1.2.trans
      (by decide),
   (C38_identity_elements incConsumer errFalsePredicate Context.Background "" "").2.2.1.trans
      (by decide)⟩

end funk
